import Mathlib

/-!
Verification of the BotDespensa query pipeline (`sources/assistant.py`,
`sources/query_optimizer.py`, `sources/table_info.py`, `sources/validators.py`)
against its natural-language specification.

The Python code is shallowly embedded: strings are `List Char`, the regex
substitutions used by the code are implemented as direct left-to-right
scanners with the same semantics as `re.sub` / `re.search` on the concrete
patterns appearing in the source, and side effects (LLM calls, database
access, the schema cache) are modelled by an explicit environment record,
explicit cache state, and an effect-counting trace.  Python's `re` matches
`\w` and `\s` on Unicode; the queries this system manipulates are ASCII, and
the embedding uses the ASCII classes.
-/

namespace BotDespensa

abbrev Chars := List Char

/-- Python whitespace for `str.split` / `str.strip` / regex `\s` (ASCII part). -/
def isPySpace (c : Char) : Bool :=
  c == ' ' || c == '\t' || c == '\n' || c == '\r' || c == '\x0b' || c == '\x0c'

/-- Regex `\w` (ASCII part): letters, digits, underscore. -/
def isWordChar (c : Char) : Bool :=
  c.isAlphanum || c == '_'

/-- The single-quote character, written via its code point. -/
def squote : Char := Char.ofNat 39

/-- Python `s.lstrip()` on char lists. -/
def dropLeadWs (s : Chars) : Chars := s.dropWhile isPySpace

/-- Python `s.rstrip()` on char lists. -/
def dropTrailWs (s : Chars) : Chars := (s.reverse.dropWhile isPySpace).reverse

/-- Python `s.strip()` on char lists. -/
def stripWs (s : Chars) : Chars := dropTrailWs (dropLeadWs s)

/-- Replace every maximal whitespace run by a single `' '`
    (the interior action of `re.sub(r'\s+', ' ', s)`). -/
def squeezeWs : Chars → Chars
  | [] => []
  | [c] => if isPySpace c then [' '] else [c]
  | c :: d :: cs =>
    if isPySpace c then
      if isPySpace d then squeezeWs (d :: cs)
      else ' ' :: squeezeWs (d :: cs)
    else c :: squeezeWs (d :: cs)

/-- Python `' '.join(s.split())`: collapse whitespace runs and strip the ends. -/
def joinSplitWs (s : Chars) : Chars := stripWs (squeezeWs s)

theorem length_dropWhile_le {α : Type} (p : α → Bool) (l : List α) :
    (l.dropWhile p).length ≤ l.length := by
  induction l with
  | nil => simp
  | cons c cs ih =>
    rw [List.dropWhile_cons]
    split
    · exact le_trans ih (by simp)
    · simp

/-- Contiguous-subsequence test on char lists. -/
def containsSeq (w : Chars) : Chars → Bool
  | [] => w.isEmpty
  | s@(_ :: t) => w.isPrefixOf s || containsSeq w t

/-- Case-insensitive substring test: `re.search(word, s, re.IGNORECASE)` for a
    plain-text `word` with no regex metacharacters. -/
def containsCI (w : Chars) (s : Chars) : Bool :=
  containsSeq (w.map Char.toLower) (s.map Char.toLower)

/-- Match `w` case-insensitively at the head of `s`, returning the remainder. -/
def matchCI : Chars → Chars → Option Chars
  | [], s => some s
  | _, [] => none
  | c :: w, d :: s => if d.toLower == c.toLower then matchCI w s else none

/-- After a case-insensitive whole-word occurrence: next char absent or non-word. -/
def boundaryAfter : Chars → Bool
  | [] => true
  | c :: _ => !isWordChar c

/-- Scanner for `re.search(r'\bWORD\b', s, re.IGNORECASE)`:
    `prevWord` records whether the previous character was a word character. -/
def hasWordCIAux (w : Chars) : Bool → Chars → Bool
  | _, [] => false
  | prevWord, c :: cs =>
    (!prevWord &&
      (match matchCI w (c :: cs) with
       | some rest => boundaryAfter rest
       | none => false)) ||
    hasWordCIAux w (isWordChar c) cs

/-- `re.search(r'\bWORD\b', s, re.IGNORECASE)` for a plain word `w`. -/
def hasWordCI (w : Chars) (s : Chars) : Bool := hasWordCIAux w false s

section QueryOptimizer

/-! Embedding of `sources/query_optimizer.py`, class `QueryOptimizer`. -/

/-- Drop one leading `'\n'` if present (the `\n?` part of the fence patterns). -/
def dropOptNl : Chars → Chars
  | '\n' :: cs => cs
  | cs => cs

theorem dropOptNl_length_le (cs : Chars) : (dropOptNl cs).length ≤ cs.length := by
  unfold dropOptNl
  split <;> simp

/-- `re.sub(r'```\w*\n?', '', s)` with explicit recursion fuel (each fence hit
    consumes at least three characters, so fuel `s.length` always suffices;
    structural recursion on the fuel keeps the scanner kernel-evaluable). -/
def removeFenceOpenF : Nat → Chars → Chars
  | 0, s => s
  | fuel + 1, s =>
    match s with
    | '`' :: '`' :: '`' :: cs =>
      removeFenceOpenF fuel (dropOptNl (cs.dropWhile isWordChar))
    | c :: cs => c :: removeFenceOpenF fuel cs
    | [] => []

/-- `re.sub(r'```\w*\n?', '', s)`: remove every code-fence opener together with
    its (greedy) language tag and an optional following newline. -/
def removeFenceOpen (s : Chars) : Chars := removeFenceOpenF s.length s

/-- `re.sub(r'\n?```', '', s)`: remove every remaining code fence, swallowing a
    preceding newline. -/
def removeFenceClose : Chars → Chars
  | '\n' :: '`' :: '`' :: '`' :: cs => removeFenceClose cs
  | '`' :: '`' :: '`' :: cs => removeFenceClose cs
  | c :: cs => c :: removeFenceClose cs
  | [] => []

/-- Scan for the first `-->`, returning the remainder after it
    (the non-greedy `.*?-->` with `re.DOTALL`). -/
def findCommentEnd : Chars → Option Chars
  | '-' :: '-' :: '>' :: cs => some cs
  | _ :: cs => findCommentEnd cs
  | [] => none

theorem findCommentEnd_length_lt :
    ∀ (cs rest : Chars), findCommentEnd cs = some rest → rest.length < cs.length := by
  intro cs
  induction cs using findCommentEnd.induct with
  | case1 cs =>
    intro rest h
    simp only [findCommentEnd, Option.some.injEq] at h
    subst h
    simp only [List.length_cons]
    omega
  | case2 head cs hne ih =>
    intro rest h
    rw [findCommentEnd.eq_2] at h
    · exact Nat.lt_trans (ih rest h) (by simp)
    · exact fun cs1 h1 h2 => hne cs1 h1 h2
  | case3 =>
    intro rest h
    simp [findCommentEnd] at h

/-- `re.sub(r'<!--.*?-->', '', s, flags=re.DOTALL)` with explicit recursion
    fuel (fuel `s.length` always suffices). -/
def removeHtmlCommentsF : Nat → Chars → Chars
  | 0, s => s
  | fuel + 1, s =>
    match s with
    | '<' :: '!' :: '-' :: '-' :: cs =>
      (match findCommentEnd cs with
       | some rest => removeHtmlCommentsF fuel rest
       | none => '<' :: '!' :: '-' :: '-' :: removeHtmlCommentsF fuel cs)
    | c :: cs => c :: removeHtmlCommentsF fuel cs
    | [] => []

/-- `re.sub(r'<!--.*?-->', '', s, flags=re.DOTALL)`: remove every HTML comment. -/
def removeHtmlComments (s : Chars) : Chars := removeHtmlCommentsF s.length s

/-- `QueryOptimizer.fix_markdown_artifacts` on char lists. -/
def fixMarkdownArtifacts (q : Chars) : Chars :=
  stripWs (joinSplitWs (removeHtmlComments (removeFenceClose (removeFenceOpen q))))

/-- `QueryOptimizer.fix_markdown_artifacts` (string wrapper). -/
def fix_markdown_artifacts (q : String) : String :=
  ⟨fixMarkdownArtifacts q.data⟩

/-- Match `LIMIT` case-insensitively at the head, returning the remainder. -/
def matchLimitCI : Chars → Option Chars
  | a :: b :: c :: d :: e :: rest =>
    if a.toLower == 'l' && b.toLower == 'i' && c.toLower == 'm' &&
       d.toLower == 'i' && e.toLower == 't'
    then some rest else none
  | _ => none

theorem matchLimitCI_length {cs rest : Chars} (h : matchLimitCI cs = some rest) :
    rest.length + 5 = cs.length := by
  unfold matchLimitCI at h
  split at h
  · split at h
    · simp only [Option.some.injEq] at h
      subst h
      simp only [List.length_cons]
    · simp at h
  · simp at h

/-- Greedy `\d+` at the head: the digit run and the remainder after it. -/
def matchDigits (r3 : Chars) : Option (Chars × Chars) :=
  match r3.takeWhile Char.isDigit with
  | [] => none
  | d :: ds => some (d :: ds, r3.drop (d :: ds).length)

theorem matchDigits_length {r3 digits rest : Chars}
    (h : matchDigits r3 = some (digits, rest)) : rest.length ≤ r3.length := by
  unfold matchDigits at h
  split at h
  · simp at h
  · simp only [Option.some.injEq, Prod.mk.injEq] at h
    obtain ⟨-, hr⟩ := h
    subst hr
    simp

/-- After a `;`: match `\s*LIMIT\s+(\d+)`, returning the digit group and the
    remainder after the match. -/
def matchSemiLimit (cs : Chars) : Option (Chars × Chars) :=
  match matchLimitCI (cs.dropWhile isPySpace) with
  | none => none
  | some [] => none
  | some (c :: r2) =>
    if isPySpace c then matchDigits (r2.dropWhile isPySpace)
    else none

theorem matchSemiLimit_length {cs : Chars} {digits rest : Chars}
    (h : matchSemiLimit cs = some (digits, rest)) : rest.length ≤ cs.length := by
  unfold matchSemiLimit at h
  split at h
  · simp at h
  · simp at h
  · rename_i c r2 hm
    split at h
    · have h1 := matchLimitCI_length hm
      have h2 := length_dropWhile_le isPySpace cs
      have h3 := length_dropWhile_le isPySpace r2
      have h4 := matchDigits_length h
      simp only [List.length_cons] at h1
      omega
    · simp at h

/-- `re.sub(r';\s*LIMIT\s+(\d+)', r' LIMIT \1;', s, flags=re.IGNORECASE)` with
    explicit recursion fuel (fuel `s.length` always suffices). -/
def fixSemiLimitF : Nat → Chars → Chars
  | 0, s => s
  | fuel + 1, s =>
    match s with
    | [] => []
    | c :: cs =>
      if c == ';' then
        match matchSemiLimit cs with
        | some (digits, rest) =>
          ' ' :: 'L' :: 'I' :: 'M' :: 'I' :: 'T' :: ' ' ::
            (digits ++ ';' :: fixSemiLimitF fuel rest)
        | none => c :: fixSemiLimitF fuel cs
      else c :: fixSemiLimitF fuel cs

/-- `re.sub(r';\s*LIMIT\s+(\d+)', r' LIMIT \1;', s, flags=re.IGNORECASE)`. -/
def fixSemiLimit (s : Chars) : Chars := fixSemiLimitF s.length s

/-- `re.sub(r';+', ';', s)`: collapse repeated semicolons. -/
def collapseSemis : Chars → Chars
  | [] => []
  | ';' :: rest =>
    (match rest with
     | ';' :: _ => collapseSemis rest
     | _ => ';' :: collapseSemis rest)
  | c :: cs => c :: collapseSemis cs

/-- Python `s.rstrip(';')`. -/
def rstripSemis (s : Chars) : Chars := (s.reverse.dropWhile (· == ';')).reverse

/-- `QueryOptimizer.fix_sql_syntax_issues` on char lists. -/
def fixSqlSyntaxIssues (q : Chars) : Chars :=
  rstripSemis (collapseSemis (fixSemiLimit (stripWs (squeezeWs q))))

/-- `QueryOptimizer.fix_sql_syntax_issues` (string wrapper). -/
def fix_sql_syntax_issues (q : String) : String :=
  ⟨fixSqlSyntaxIssues q.data⟩

/-- Does `LIMIT\s+\d+` match here (case-insensitively)? -/
def limitHere (cs : Chars) : Bool :=
  match matchLimitCI cs with
  | some (c :: r2) =>
    isPySpace c &&
      (match r2.dropWhile isPySpace with
       | d :: _ => d.isDigit
       | [] => false)
  | _ => false

/-- Scanner for `re.search(r'\bLIMIT\s+\d+', s, re.IGNORECASE)`. -/
def hasLimitNumAux : Bool → Chars → Bool
  | _, [] => false
  | prevWord, c :: cs =>
    (!prevWord && limitHere (c :: cs)) || hasLimitNumAux (isWordChar c) cs

/-- `re.search(r'\bLIMIT\s+\d+', s, re.IGNORECASE)` as a Bool. -/
def hasLimitNum (s : Chars) : Bool := hasLimitNumAux false s

/-- `QueryOptimizer.add_error_resilience` on char lists. -/
def addErrorResilience (q : Chars) : Chars :=
  let q := stripWs q
  if hasLimitNum q then q else q ++ (" LIMIT 1000".data)

/-- `QueryOptimizer.add_error_resilience` (string wrapper). -/
def add_error_resilience (q : String) : String :=
  ⟨addErrorResilience q.data⟩

/-- `QueryOptimizer.validate_and_enhance_query`: the three-step pipeline with
    its warning list.  The `table_name` parameter is unused by the source. -/
def validate_and_enhance_query (query : String) (_tableName : String) :
    String × List String :=
  let enhanced := query
  let cleaned := fix_markdown_artifacts enhanced
  let step1 : String × List String :=
    if cleaned ≠ enhanced then
      (cleaned, ["Se removieron artefactos de markdown de la consulta"])
    else (enhanced, [])
  let resilient := add_error_resilience step1.1
  let step2 : String × List String :=
    if resilient ≠ step1.1 then
      (resilient, step1.2 ++ ["Se agregaron elementos de resistencia a errores"])
    else (step1.1, step1.2)
  let syntaxFixed := fix_sql_syntax_issues step2.1
  if syntaxFixed ≠ step2.1 then
    (syntaxFixed, step2.2 ++ ["Se corrigieron problemas de sintaxis SQL"])
  else (step2.1, step2.2)

end QueryOptimizer

section Validators

/-! Embedding of `sources/validators.py`. -/

/-- The single-quote character as a string. -/
def sqS : String := String.singleton squote

/-- The keyword alternation of `SQLValidator.DANGEROUS_PATTERNS[0]`. -/
def dangerousKeywords : List String :=
  ["DELETE", "DROP", "ALTER", "TRUNCATE", "INSERT", "UPDATE",
   "CREATE", "RENAME", "REVOKE", "GRANT"]

/-- Does `/\*.*?\*/` match at the head: a `/*` here with a `*/` strictly after it. -/
def blockCommentAt : Chars → Bool
  | '/' :: '*' :: cs => containsSeq ('*' :: '/' :: []) cs
  | _ => false

/-- `re.search(r'/\*.*?\*/', s, re.DOTALL)` as a Bool. -/
def hasBlockComment : Chars → Bool
  | [] => false
  | s@(_ :: t) => blockCommentAt s || hasBlockComment t

/-- The dangerous-pattern test of `SQLValidator.validate_sql_query`:
    a mutating/DDL keyword as a whole word, an inline `--` comment marker, a
    block comment, or EXEC/EXECUTE as a whole word (all case-insensitive where
    the source patterns are). -/
def matchesDangerousPatterns (q : Chars) : Bool :=
  dangerousKeywords.any (fun k => hasWordCI k.data q) ||
  containsSeq ('-' :: '-' :: []) q ||
  hasBlockComment q ||
  hasWordCI "EXEC".data q || hasWordCI "EXECUTE".data q

/-- `SQLValidator.validate_sql_query`: `.error msg` models a raised
    `ValidationError(msg)`. -/
def validate_sql_query (query : String) (maxLength : Nat := 10000) :
    Except String Bool :=
  if query = "" then .error "La consulta SQL no puede estar vacía"
  else if query.length > maxLength then
    .error ("La consulta SQL es demasiado larga (máximo " ++
      toString maxLength ++ " caracteres)")
  else if matchesDangerousPatterns query.data then
    .error "La consulta contiene patrones no permitidos"
  else .ok true

/-- `InputValidator.validate_text_input`: `.error msg` models a raised
    `ValidationError(msg)`. -/
def validate_text_input (t : String) (maxLength : Nat := 1000)
    (minLength : Nat := 1) : Except String Bool :=
  if t.length < minLength then
    .error ("El texto debe tener al menos " ++ toString minLength ++ " caracteres")
  else if t.length > maxLength then
    .error ("El texto no puede exceder " ++ toString maxLength ++ " caracteres")
  else if ['\x00', '\x08', '\x0b', '\x0c', '\x0e', '\x0f'].any
      (fun c => t.data.contains c) then
    .error "El texto contiene caracteres de control no permitidos"
  else .ok true

end Validators

section JsonModel

/-! A small JSON value type together with `json.dumps` rendering.  Decimal
    values are carried exactly (`mantissa * 10^-exp10`); rendering an exact
    decimal matches CPython for the short decimals a MySQL money column
    produces (IEEE-754 rounding of inexact values is not modelled, and no
    claim depends on it). -/

inductive Json where
  | null
  | bool (b : Bool)
  | int (n : Int)
  | dec (mantissa : Int) (exp10 : Nat)
  | str (s : String)
  | arr (xs : List Json)
  | obj (fields : List (String × Json))

/-- Lowercase hex digit. -/
def hexDigit (n : Nat) : Char :=
  if n < 10 then Char.ofNat (48 + n) else Char.ofNat (87 + n)

/-- `json.dumps` escaping of one character; `ensureAscii` is the
    `ensure_ascii` flag (`True` by default in Python). -/
def escapeChar (ensureAscii : Bool) (c : Char) : Chars :=
  if c == '"' then ['\\', '"']
  else if c == '\\' then ['\\', '\\']
  else if c == '\n' then ['\\', 'n']
  else if c == '\t' then ['\\', 't']
  else if c == '\r' then ['\\', 'r']
  else if c == '\x08' then ['\\', 'b']
  else if c == '\x0c' then ['\\', 'f']
  else if c.toNat < 0x20 || (ensureAscii && c.toNat > 0x7e) then
    ['\\', 'u', hexDigit (c.toNat / 4096 % 16), hexDigit (c.toNat / 256 % 16),
     hexDigit (c.toNat / 16 % 16), hexDigit (c.toNat % 16)]
  else [c]

/-- `json.dumps` rendering of a string, quotes included. -/
def jsonQuote (ensureAscii : Bool) (s : String) : String :=
  ⟨'"' :: (s.data.map (escapeChar ensureAscii)).join ++ ['"']⟩

/-- Decimal rendering of `mantissa * 10^-exp10` as Python renders the float of
    an exact short decimal (`4.0`, `-12.5`). -/
def renderDec (m : Int) (e : Nat) : String :=
  let sign := if m < 0 then "-" else ""
  let digits := toString m.natAbs
  let digits := if digits.length ≤ e then
    String.mk (List.replicate (e + 1 - digits.length) '0') ++ digits else digits
  let intPart := digits.take (digits.length - e)
  let fracPart := (digits.drop (digits.length - e)).data.reverse.dropWhile
    (· == '0') |>.reverse
  sign ++ intPart ++ "." ++ (if fracPart.isEmpty then "0" else String.mk fracPart)

/-! `json.dumps`; `compact` selects `separators=(',', ':')`, otherwise the
    default separators `(', ', ': ')` are used; `ensureAscii` is the
    `ensure_ascii` flag. -/

mutual

def dumpsVal (compact ensureAscii : Bool) : Json → String
  | .null => "null"
  | .bool true => "true"
  | .bool false => "false"
  | .int n => toString n
  | .dec m e => renderDec m e
  | .str s => jsonQuote ensureAscii s
  | .arr xs =>
    "[" ++ String.intercalate (if compact then "," else ", ")
      (dumpsItems compact ensureAscii xs) ++ "]"
  | .obj fs =>
    "\x7b" ++ String.intercalate (if compact then "," else ", ")
      (dumpsFields compact ensureAscii fs) ++ "\x7d"

def dumpsItems (compact ensureAscii : Bool) : List Json → List String
  | [] => []
  | x :: xs => dumpsVal compact ensureAscii x :: dumpsItems compact ensureAscii xs

def dumpsFields (compact ensureAscii : Bool) :
    List (String × Json) → List String
  | [] => []
  | kv :: fs =>
    (jsonQuote ensureAscii kv.1 ++ (if compact then ":" else ": ") ++
      dumpsVal compact ensureAscii kv.2) :: dumpsFields compact ensureAscii fs

end

/-- `json.dumps`. -/
def Json.dumps (compact : Bool) (j : Json) (ensureAscii : Bool := true) : String :=
  dumpsVal compact ensureAscii j

end JsonModel

section Diagnosis

/-! Embedding of `diagnose_query_error` from `sources/query_optimizer.py`. -/

structure Diagnosis where
  error_type : String
  description : String
  suggestions : List String
  auto_fix_available : Bool

/-- `diagnose_query_error(error_message, query)`; the `query` argument is not
    used by the source. -/
def diagnose_query_error (errorMessage : String) (_query : String) : Diagnosis :=
  let errorLower := errorMessage.toLower
  if containsSeq "```sql".data errorMessage.data ||
     containsSeq "```".data errorMessage.data then
    { error_type := "markdown_artifacts"
      description := "La consulta contiene artefactos de markdown"
      suggestions := ["Remover los bloques de código markdown (```)",
                      "Limpiar la consulta antes de ejecutar"]
      auto_fix_available := true }
  else if containsSeq "unknown column".data errorLower.data then
    { error_type := "unknown_column"
      description := "Columna no existe o nombre incorrecto"
      suggestions := ["Verificar el nombre de la columna",
                      "Revisar mayúsculas/minúsculas si es relevante",
                      "Consultar la estructura de la tabla"]
      auto_fix_available := false }
  else if containsSeq "syntax error".data errorLower.data ||
          containsSeq "you have an error in your sql syntax".data errorLower.data then
    { error_type := "syntax_error"
      description := "Error de sintaxis SQL"
      suggestions := ["Verificar paréntesis balanceados",
                      "Revisar comillas y caracteres especiales",
                      "Validar estructura de la consulta"]
      auto_fix_available := false }
  else if containsSeq "table".data errorLower.data &&
          (containsSeq ("doesn" ++ sqS ++ "t exist").data errorLower.data ||
           containsSeq "not found".data errorLower.data) then
    { error_type := "table_not_found"
      description := "La tabla especificada no existe"
      suggestions := ["Verificar el nombre de la tabla",
                      "Confirmar que la tabla existe en la base de datos",
                      "Revisar permisos de acceso"]
      auto_fix_available := false }
  else
    { error_type := "unknown", description := "", suggestions := []
      auto_fix_available := false }

/-- The JSON object for a diagnosis, in the field order of the source dict. -/
def Diagnosis.toJson (d : Diagnosis) : Json :=
  .obj [("error_type", .str d.error_type),
        ("description", .str d.description),
        ("suggestions", .arr (d.suggestions.map Json.str)),
        ("auto_fix_available", .bool d.auto_fix_available)]

end Diagnosis

section EnvModel

/-! The effectful world of `sources/assistant.py` / `sources/table_info.py`:
    the LLM client, the SQLAlchemy inspector and the connection pool are
    modelled by an environment record, and each modelled operation reports an
    effect trace (how many LLM invocations, `connection.execute` calls and
    schema introspections it performed). -/

/-- A database value as fetched by SQLAlchemy.  Decimal values are carried as
    exact scaled integers; datetime/date values are carried together with
    their `isoformat()` rendering, which is all `execute_query` observes. -/
inductive SqlVal where
  | null
  | int (n : Int)
  | str (s : String)
  | bool (b : Bool)
  | decimal (mantissa : Int) (exp10 : Nat)
  | datetime (iso : String)
  | date (iso : String)

/-- Outcome of `connection.execute(text(sql))` plus `fetchall()`/`keys()`. -/
inductive DbOutcome where
  | ok (keys : List String) (rows : List (List SqlVal))
  | sqlError (msg : String)
  | otherError (msg : String)

/-- The external collaborators.  `llm` is `llm.invoke` (`.error` models a
    raised exception, carrying `str(e)`); `listTables` / `getColumns` model
    `inspect(engine).get_table_names()` / `.get_columns(t)`; `getConn` models
    `get_db_connection()`; `dbExec` models executing a statement on a pooled
    connection; `sampleExec` models the parametrised
    `SELECT * FROM t LIMIT :limit` of `get_table_sample`. -/
structure Env where
  llm : String → Except String String
  listTables : Except String (List String)
  getColumns : String → Except String (List (String × String))
  getConn : Except String Unit
  dbExec : String → DbOutcome
  sampleExec : String → Nat → Except String (List (List SqlVal))

/-- Effect trace of one modelled call. -/
structure Trace where
  llmCalls : Nat := 0
  dbExecs : Nat := 0
  introspections : Nat := 0
  optimizes : Nat := 0
  deriving DecidableEq, Repr

def Trace.add (a b : Trace) : Trace :=
  ⟨a.llmCalls + b.llmCalls, a.dbExecs + b.dbExecs,
   a.introspections + b.introspections, a.optimizes + b.optimizes⟩

end EnvModel

section ExecuteQuery

/-! Embedding of `execute_query` from `sources/assistant.py`. -/

/-- The forbidden-word list of `execute_query` (a separate literal in the
    source, duplicating the keyword list of `SQLValidator`). -/
def forbidden_words : List String :=
  ["DELETE", "DROP", "ALTER", "TRUNCATE", "INSERT", "UPDATE",
   "CREATE", "RENAME", "REVOKE", "GRANT"]

/-- The gate `for word in forbidden_words: if re.search(word, query,
    re.IGNORECASE)` — a case-insensitive substring test, not a whole-word
    test. -/
def safetyGateBlocks (query : String) : Bool :=
  forbidden_words.any (fun w => containsCI w.data query.data)

def refusalMessage : String := "Disculpa, no tengo permisos para hacer eso."

/-- `json.dumps({"error": "Disculpa, no tengo permisos para hacer eso."})`
    with the default separators. -/
def refusalJson : String :=
  (Json.obj [("error", Json.str refusalMessage)]).dumps false

/-- The per-value conversion loop of `execute_query`: `decimal.Decimal` to
    `float`, `datetime`/`date` to `isoformat()` strings. -/
def convertVal : SqlVal → Json
  | .null => .null
  | .int n => .int n
  | .str s => .str s
  | .bool b => .bool b
  | .decimal m e => .dec m e
  | .datetime iso => .str iso
  | .date iso => .str iso

/-- `dict(zip(columns, row))` with converted values.  (Python would collapse
    duplicate column names; the result sets in this system have distinct
    keys, and the model keeps the zipped order.) -/
def rowToObj (keys : List String) (row : List SqlVal) : Json :=
  Json.obj ((keys.zip row).map (fun kv => (kv.1, convertVal kv.2)))

/-- One pass of `execute_query(query, table_name)` up to (but not including)
    the recursive markdown retry, returning either the final result with its
    effect trace (`inl`), or — when the retry branch fires — the fixed query
    to retry together with the error response that would be returned were the
    retry not taken (`inr`).  The source guards the optimizer call with
    `try/except`, but the optimizer is total on strings, so the fallback
    `optimized_query = query` branch is unreachable and not modelled. -/
def execute_query_step (env : Env) (query : String)
    (tableName : Option String) : (Json × Trace) ⊕ (String × (Json × Trace)) :=
  if safetyGateBlocks query then
    .inl (Json.obj [("error", Json.str refusalMessage)], {})
  else
    let optimized := (validate_and_enhance_query query (tableName.getD "")).1
    match env.getConn with
    | .error e => .inl (Json.obj [("error", Json.str e)], { optimizes := 1 })
    | .ok _ =>
      match env.dbExec optimized with
      | .ok keys rows =>
        .inl (Json.arr (rows.map (rowToObj keys)), { dbExecs := 1, optimizes := 1 })
      | .sqlError msg =>
        let diagnosis := diagnose_query_error msg optimized
        let errorResponse : Json × Trace :=
          (Json.obj [("error", Json.str msg),
                     ("diagnosis", diagnosis.toJson),
                     ("suggestions", Json.arr (diagnosis.suggestions.map Json.str))],
           { dbExecs := 1, optimizes := 1 })
        let retry : Option String :=
          if diagnosis.auto_fix_available && optimized == query &&
             diagnosis.error_type == "markdown_artifacts" then
            let fixedQuery := fix_markdown_artifacts query
            if fixedQuery ≠ query then some fixedQuery else none
          else none
        match retry with
        | some fq => .inr (fq, errorResponse)
        | none => .inl errorResponse
      | .otherError msg =>
        .inl (Json.obj [("error", Json.str msg)], { dbExecs := 1, optimizes := 1 })

/-- `execute_query` with explicit recursion fuel: the retry recursion of the
    source is unrolled through `execute_query_step`; the trace of a retried
    call adds the effects of the failed attempt. -/
def execute_query_fuel : Nat → Env → String → Option String → Json × Trace
  | 0, env, query, tableName =>
    match execute_query_step env query tableName with
    | .inl r => r
    | .inr (_, fallback) => fallback
  | fuel + 1, env, query, tableName =>
    match execute_query_step env query tableName with
    | .inl r => r
    | .inr (fq, _) =>
      let r := execute_query_fuel fuel env fq tableName
      (r.1, Trace.add { dbExecs := 1, optimizes := 1 } r.2)

/-- The serialization each branch of `execute_query` applies: the row-list
    success path uses `separators=(',', ':')`, every other branch uses the
    `json.dumps` defaults. -/
def executeResultText (v : Json) : String :=
  match v with
  | .arr _ => v.dumps true
  | _ => v.dumps false

/-- `execute_query` with generous fuel (the retry branch fires at most on a
    query the optimizer left unchanged while the markdown fix changes it;
    the claim-C7 theorem shows the branch does not fire at all on
    markdown-clean queries). -/
def execute_query (env : Env) (query : String)
    (tableName : Option String := none) : String × Trace :=
  let r := execute_query_fuel (query.length + 1) env query tableName
  (executeResultText r.1, r.2)

end ExecuteQuery

section TableInfoCache

/-! Embedding of `sources/table_info.py`.  The module-level `cache` dict is
    modelled as an insertion-ordered association list; `datetime.now()` is
    modelled by a `now : Nat` (seconds) supplied per call (the source reads
    the clock more than once inside a call; the drift within one call is not
    observable at this granularity). -/

/-- The `{'columns': [(name, type)]}` payload, modelled by its column list. -/
abbrev TableInfo := List (String × String)

/-- A per-table sample: the single-key dict `{table: {column: [values]}}`. -/
abbrev TableSample := String × List (String × List String)

/-- A per-table-key cache entry (fields written by `get_table_info` and
    `get_table_sample`; the dict may hold any subset of them). -/
structure TblEntry where
  table_info : Option TableInfo := none
  timestamp : Option Nat := none
  table_sample : Option TableSample := none
  sample_timestamp : Option Nat := none
  deriving DecidableEq, Repr

/-- A cache slot: the `'db_info'` whole-schema entry (a dict that carries its
    own `'timestamp'` key) or a per-table entry. -/
inductive CacheVal where
  | dbInfo (info : List (String × TableInfo)) (timestamp : Nat)
  | tbl (e : TblEntry)
  deriving DecidableEq, Repr

/-- The module-level `cache`, in insertion order. -/
abbrev Cache := List (String × CacheVal)

def MAX_CACHE_SIZE : Nat := 100

/-- `timedelta(hours=CACHE_EXPIRY_HOURS)` in seconds. -/
def CACHE_EXPIRY_SECONDS : Nat := 3600

def cacheFind (s : Cache) (k : String) : Option CacheVal :=
  (s.find? (fun kv => kv.1 == k)).map (·.2)

/-- Python-dict assignment: replace in place if the key exists (keeping its
    insertion position), else append. -/
def cacheSet (s : Cache) (k : String) (v : CacheVal) : Cache :=
  if (s.find? (fun kv => kv.1 == k)).isSome then
    s.map (fun kv => if kv.1 == k then (k, v) else kv)
  else s ++ [(k, v)]

/-- `clear_cache_if_needed`: when the entry count exceeds `MAX_CACHE_SIZE`,
    delete the first `len(cache) // 2` keys in insertion order. -/
def clear_cache_if_needed (s : Cache) : Cache :=
  if s.length > MAX_CACHE_SIZE then s.drop (s.length / 2) else s

/-- `get_db_info()`: whole-schema introspection with the 1-hour cache.
    Tables whose column fetch fails are skipped; a failing table listing is
    caught and yields `{}` without caching. -/
def get_db_info (env : Env) (now : Nat) (s : Cache) :
    List (String × TableInfo) × Cache × Trace :=
  let cached : Option (List (String × TableInfo)) :=
    match cacheFind s "db_info" with
    | some (.dbInfo info ts) =>
      if now - ts < CACHE_EXPIRY_SECONDS then some info else none
    | _ => none
  match cached with
  | some info => (info, s, {})
  | none =>
    match env.listTables with
    | .error _ => ([], s, { introspections := 1 })
    | .ok tables =>
      let info := tables.filterMap (fun t =>
        (env.getColumns t).toOption.map (fun cols => (t, cols)))
      (info, cacheSet s "db_info" (.dbInfo info now), { introspections := 1 })

/-- Python `str(list_of_names)`: `['a', 'b']`. -/
def pyListRepr (xs : List String) : String :=
  "[" ++ String.intercalate ", " (xs.map (fun x => sqS ++ x ++ sqS)) ++ "]"

/-- `get_table_info(table_name)`: per-table schema with the 1-hour cache;
    `.error` models the raised exception. -/
def get_table_info (env : Env) (now : Nat) (tableName : String) (s : Cache) :
    Except String TableInfo × Cache × Trace :=
  let hit : Option TableInfo :=
    match cacheFind s tableName with
    | some (.tbl e) =>
      match e.table_info, e.timestamp with
      | some ti, some ts =>
        if now - ts < CACHE_EXPIRY_SECONDS then some ti else none
      | _, _ => none
    | _ => none
  match hit with
  | some ti => (.ok ti, s, {})
  | none =>
    let s1 := clear_cache_if_needed s
    match env.listTables with
    | .error e => (.error e, s1, { introspections := 1 })
    | .ok existingTables =>
      if tableName ∈ existingTables then
        match env.getColumns tableName with
        | .error e => (.error e, s1, { introspections := 1 })
        | .ok cols =>
          let entry : TblEntry :=
            match cacheFind s1 tableName with
            | some (.tbl e) => e
            | _ => {}
          let entry := { entry with table_info := some cols, timestamp := some now }
          (.ok cols, cacheSet s1 tableName (.tbl entry), { introspections := 1 })
      else
        (.error ("Tabla " ++ sqS ++ tableName ++ sqS ++
           " no existe. Tablas disponibles: " ++ pyListRepr existingTables),
         s1, { introspections := 1 })

/-- Python `str(value)` for sampled cells.  `str(Decimal)` keeps all digits;
    datetime/date values are observed through their carried rendering. -/
def pyStrVal : SqlVal → String
  | .null => "None"
  | .int n => toString n
  | .str s => s
  | .bool b => if b then "True" else "False"
  | .decimal m e =>
    let sign := if m < 0 then "-" else ""
    let digits := toString m.natAbs
    if e == 0 then sign ++ digits
    else
      let digits := if digits.length ≤ e then
        String.mk (List.replicate (e + 1 - digits.length) '0') ++ digits else digits
      sign ++ digits.take (digits.length - e) ++ "." ++ digits.drop (digits.length - e)
  | .datetime iso => iso
  | .date iso => iso

/-- The per-column unique-value collection of `get_table_sample` (a Python
    `set` capped at 10; set iteration order is implementation-defined, the
    model keeps first-seen order). -/
def sampleColumn (cn : String) (rows : List (List (String × SqlVal))) :
    List String :=
  (rows.foldl (fun acc row =>
    if 10 ≤ acc.length then acc
    else
      match (row.find? (fun kv => kv.1 == cn)).map (·.2) with
      | some SqlVal.null => acc
      | some v => if (pyStrVal v) ∈ acc then acc else acc ++ [pyStrVal v]
      | none => acc) []).take 10

/-- `get_table_sample(table_name, limit)`: sampled distinct values per column
    with the 1-hour cache; `.error` models the raised exception. -/
def get_table_sample (env : Env) (now : Nat) (tableName : String) (lim : Nat)
    (s : Cache) : Except String TableSample × Cache × Trace :=
  let hit : Option TableSample :=
    match cacheFind s tableName with
    | some (.tbl e) =>
      match e.table_sample, e.sample_timestamp with
      | some sm, some ts =>
        if now - ts < CACHE_EXPIRY_SECONDS then some sm else none
      | _, _ => none
    | _ => none
  match hit with
  | some sm => (.ok sm, s, {})
  | none =>
    let s1 := clear_cache_if_needed s
    match env.listTables with
    | .error e => (.error e, s1, { introspections := 1 })
    | .ok existingTables =>
      if tableName ∈ existingTables then
        match env.getColumns tableName with
        | .error e => (.error e, s1, { introspections := 1 })
        | .ok cols =>
          let columnNames := cols.map (·.1)
          match env.getConn with
          | .error e => (.error e, s1, { introspections := 1 })
          | .ok _ =>
            match env.sampleExec tableName lim with
            | .error e => (.error e, s1, { introspections := 1, dbExecs := 1 })
            | .ok rows =>
              let rowsAsDicts := rows.map (fun r => columnNames.zip r)
              let sample : TableSample :=
                (tableName,
                 columnNames.map (fun cn => (cn, sampleColumn cn rowsAsDicts)))
              let entry : TblEntry :=
                match cacheFind s1 tableName with
                | some (.tbl e) => e
                | _ => {}
              let entry := { entry with table_sample := some sample,
                                        sample_timestamp := some now }
              (.ok sample, cacheSet s1 tableName (.tbl entry),
               { introspections := 1, dbExecs := 1 })
      else
        (.error ("Tabla " ++ sqS ++ tableName ++ sqS ++
           " no existe para obtener muestra"),
         s1, { introspections := 1 })

end TableInfoCache

section Assistant

/-! Embedding of the remaining functions of `sources/assistant.py`:
    `detect_relevant_table`, `generate_query`, `transform_response`,
    `process_question`. -/

/-- The prompt `detect_relevant_table` builds over the schema description. -/
def detectTablePrompt (question : String) (info : List (String × TableInfo)) :
    String :=
  let tablesText := String.intercalate "\n" (info.map (fun ti =>
    "- " ++ ti.1 ++ ": columnas(" ++
      String.intercalate ", " (ti.2.map (·.1)) ++ ")"))
  "Pregunta del usuario: \"" ++ question ++
  "\"\n\nEstructura de la base de datos:\n" ++ tablesText ++
  "\n\nAnaliza la pregunta y determina qué tabla es la más relevante basándote en:\n" ++
  "1. Las palabras en la pregunta (cliente, producto, marca, etc.)\n" ++
  "2. Los nombres de las columnas en cada tabla\n" ++
  "3. El contexto de lo que se pregunta\n\n" ++
  "Responde SOLO con el nombre exacto de UNA tabla de la lista, sin puntos, comillas ni explicaciones.\n\n" ++
  "Nombre de la tabla:"

/-- Sequential `str.replace(c, '')` for each cleaning character. -/
def removeAllChars (bad : List Char) (s : Chars) : Chars :=
  s.filter (fun c => !(bad.contains c))

/-- `detect_relevant_table(question)`: whole-schema lookup, single-table
    short-circuit, LLM classification with exact then case-insensitive
    matching, and first-table fallback on no match or LLM failure. -/
def detect_relevant_table (env : Env) (now : Nat) (question : String)
    (s : Cache) : Except String String × Cache × Trace :=
  let r := get_db_info env now s
  let s1 := r.2.1
  let tr := r.2.2
  match r.1 with
  | [] => (.error "No se pudo obtener información de la base de datos", s1, tr)
  | [t] => (.ok t.1, s1, tr)
  | t0 :: t1 :: rest =>
    let info := t0 :: t1 :: rest
    match env.llm (detectTablePrompt question info) with
    | .ok resp =>
      let response := stripWs resp.data
      let response := stripWs (removeAllChars ['"', squote, '.', ':'] response)
      let respStr : String := ⟨response⟩
      if (info.find? (fun kv => kv.1 == respStr)).isSome then
        (.ok respStr, s1, tr.add { llmCalls := 1 })
      else
        match info.find? (fun kv => kv.1.toLower == respStr.toLower) with
        | some kv => (.ok kv.1, s1, tr.add { llmCalls := 1 })
        | none => (.ok t0.1, s1, tr.add { llmCalls := 1 })
    | .error _ => (.ok t0.1, s1, tr.add { llmCalls := 1 })

/-- The prompt `generate_query` builds. -/
def generateQueryPrompt (tableName question : String) (ti : TableInfo)
    (tableSample : Option TableSample) : String :=
  let columnsStr := String.intercalate ", "
    (ti.map (fun c => c.1 ++ " (" ++ c.2 ++ ")"))
  let columnNames := ti.map (·.1)
  let sampleContext :=
    match tableSample with
    | some (tn, m) =>
      if tn == tableName then
        "\nEjemplos de valores en las columnas:\n" ++
          String.join (m.map (fun cv =>
            if cv.2.isEmpty then ""
            else "  - " ++ cv.1 ++ ": " ++
              String.intercalate ", " (cv.2.take 5) ++ "\n"))
      else ""
    | none => ""
  "Genera UNA consulta SQL para MySQL que responda esta pregunta: " ++ question ++
  "\n\nTabla: " ++ tableName ++
  "\nColumnas disponibles:\n" ++ columnsStr ++ "\n" ++ sampleContext ++
  "\nREGLAS CRÍTICAS:\n" ++
  "1. Escribe SOLO la consulta SQL, sin bloques markdown (sin ```sql o ```)\n" ++
  "2. NUNCA uses columnas ID con valores de texto\n" ++
  "3. Para buscar por nombre/texto, usa columnas que contengan " ++ sqS ++
    "nombre" ++ sqS ++ " en su nombre\n" ++
  "4. Los IDs (id_*) son SIEMPRE numéricos\n" ++
  "5. Usa LIKE " ++ sqS ++ "%valor%" ++ sqS ++ " para búsquedas de texto\n" ++
  "6. Usa backticks (`) para nombres de tablas y columnas en MySQL\n" ++
  "7. NO incluyas LIMIT, se agregará automáticamente\n" ++
  "8. Revisa las columnas disponibles antes de usarlas\n\n" ++
  "Ejemplos correctos:\n" ++
  "- \"cuántos productos\": SELECT COUNT(*) as total FROM `" ++ tableName ++ "`\n" ++
  "- \"productos de Pepsi\": SELECT * FROM `" ++ tableName ++
    "` WHERE `nombre_marca` LIKE " ++ sqS ++ "%Pepsi%" ++ sqS ++ "\n" ++
  "- \"categorías\": SELECT DISTINCT `nombre_categoria` FROM `" ++ tableName ++ "`\n\n" ++
  "Columnas disponibles: " ++
    String.intercalate ", " (columnNames.map (fun col => "`" ++ col ++ "`")) ++
  "\n\nGenera SOLO la consulta SQL:"

/-- The post-processing `generate_query` applies to a completion: strip,
    markdown cleanup, removal of one pair of enclosing single quotes,
    whitespace collapse. -/
def cleanGeneratedQuery (resp : String) : String :=
  let query := stripWs resp.data
  let query := fixMarkdownArtifacts query
  let query :=
    if query.head? == some squote && query.getLast? == some squote then
      (query.drop 1).dropLast
    else query
  ⟨joinSplitWs query⟩

/-- `generate_query(table_name, question, table_info, table_sample)`:
    `.error` models the re-raised `Exception('Error generando consulta: …')`. -/
def generate_query (env : Env) (tableName question : String) (ti : TableInfo)
    (tableSample : Option TableSample) : Except String String × Trace :=
  match env.llm (generateQueryPrompt tableName question ti tableSample) with
  | .ok resp => (.ok (cleanGeneratedQuery resp), { llmCalls := 1 })
  | .error e => (.error ("Error generando consulta: " ++ e), { llmCalls := 1 })

/-- Python `str()` of a parsed JSON payload as `transform_response` uses it.
    Only string payloads are observed by the modelled pipeline (the error
    value is always a string and the non-list fallback is unreachable);
    other payloads are rendered as JSON. -/
def pyStrJson : Json → String
  | .str s => s
  | v => v.dumps false

/-- Python truthiness of a parsed JSON value (`not result_dict`). -/
def jsonFalsy : Json → Bool
  | .null => true
  | .bool b => !b
  | .int n => n == 0
  | .dec m _ => m == 0
  | .str s => s == ""
  | .arr xs => xs.isEmpty
  | .obj fs => fs.isEmpty

/-- `"error" in result_dict`: key membership for dicts, element membership
    for lists (row objects never equal the string `"error"`). -/
def errorKeyOf : Json → Option Json
  | .obj fs => (fs.find? (fun kv => kv.1 == "error")).map (·.2)
  | .arr xs =>
    if xs.any (fun x => x.dumps true == (Json.str "error").dumps true)
    then some (Json.str "error") else none
  | _ => none

/-- The phrases `transform_response` strips from a completion, in order. -/
def unwantedPhrases : List String :=
  ["La respuesta que proporcionaste ya es correcta.",
   "¡Espero que esto te sea útil!",
   "Espero que esto te ayude.",
   "¿Hay algo más en lo que pueda ayudarte?"]

/-- `str.replace(pat, '')` with explicit recursion fuel (fuel `s.length`
    always suffices for a non-empty pattern). -/
def removeOccurrencesF (pat : Chars) : Nat → Chars → Chars
  | 0, s => s
  | fuel + 1, s =>
    match s with
    | [] => []
    | c :: t =>
      if pat ≠ [] && pat.isPrefixOf (c :: t) then
        removeOccurrencesF pat fuel ((c :: t).drop pat.length)
      else c :: removeOccurrencesF pat fuel t

/-- `str.replace(pat, '')`: remove all (non-overlapping, leftmost) occurrences. -/
def removeOccurrences (pat : Chars) (s : Chars) : Chars :=
  removeOccurrencesF pat s.length s

/-- The prompt `transform_response` builds (`json.dumps(...,
    ensure_ascii=False)` for the data payload). -/
def transformPrompt (question : String) (resultVal : Json) (truncated : Bool) :
    String :=
  "Eres un asistente de despensa amigable. Responde la pregunta del usuario basándote ÚNICAMENTE en los datos proporcionados.\n\n" ++
  "Pregunta: " ++ question ++ "\n" ++
  "Datos de la base de datos: " ++ resultVal.dumps false false ++ "\n\n" ++
  "REGLAS:\n" ++
  "1. Responde de forma DIRECTA y NATURAL, como si fueras un humano conversando\n" ++
  "2. NO digas cosas como \"La respuesta que proporcionaste ya es correcta\" o \"Espero que esto te sea útil\"\n" ++
  "3. NO repitas la pregunta\n" ++
  "4. Ve directo al grano con la información\n" ++
  "5. Si hay números o listas, preséntelos de forma clara\n" ++
  "6. Máximo 80 palabras\n" ++
  "7. Sé específico con los datos, no inventes nada\n" ++
  (if truncated then
    "8. IMPORTANTE: Menciona que solo se muestran los primeros 50 resultados de un total mayor"
   else "") ++ "\n\n" ++
  "Ejemplos de BUENAS respuestas:\n" ++
  "- \"Hay 25 productos en total.\"\n" ++
  "- \"Encontré 3 productos de Pepsi: Pepsi Cola, Pepsi Light y Pepsi Zero.\"\n" ++
  "- \"Las categorías disponibles son: Bebidas, Snacks, Lácteos y Panadería.\"\n\n" ++
  "Responde SOLO con la información, sin frases de relleno:"

/-- The `{"answer": …}` payload of `transform_response`/`process_question`. -/
structure Answer where
  answer : String
  deriving DecidableEq, Repr

/-- `transform_response(question, result_json)`.  The function receives the
    parsed JSON value: `json.loads` applied to the `json.dumps` output of
    `execute_query` returns the serialized value, so the value is passed
    directly and the `JSONDecodeError` branch is unreachable in the modelled
    pipeline. -/
def transform_response (env : Env) (question : String) (resultVal : Json) :
    Answer × Trace :=
  match errorKeyOf resultVal with
  | some errVal => (⟨"Lo siento, hubo un error: " ++ pyStrJson errVal⟩, {})
  | none =>
    if jsonFalsy resultVal then
      (⟨"No encontré resultados para tu consulta. ¿Quieres que busque algo diferente?"⟩, {})
    else
      let truncatedPair : Json × Bool :=
        match resultVal with
        | .arr xs => if xs.length > 50 then (Json.arr (xs.take 50), true)
                     else (Json.arr xs, false)
        | v => (v, false)
      let resultVal := truncatedPair.1
      let truncated := truncatedPair.2
      match env.llm (transformPrompt question resultVal truncated) with
      | .ok resp =>
        let cleaned := unwantedPhrases.foldl
          (fun acc ph => stripWs (removeOccurrences ph.data acc))
          (stripWs resp.data)
        (⟨(⟨cleaned⟩ : String)⟩, { llmCalls := 1 })
      | .error _ =>
        match resultVal with
        | .arr xs =>
          (⟨"Encontré " ++ toString xs.length ++ " resultado" ++
            (if xs.length ≠ 1 then "s" else "") ++ "."⟩, { llmCalls := 1 })
        | v => (⟨pyStrJson v⟩, { llmCalls := 1 })

/-- The fixed prefix the orchestrator puts on every caught failure. -/
def errorMarker : String := "Error procesando tu pregunta: "

/-- `process_question(question)`: the orchestrator.  Every `.error` of a
    stage models the exception that the top-level `except` converts into the
    marker-prefixed answer; the sample-fetch failure is swallowed. -/
def process_question (env : Env) (now : Nat) (question : String) (s : Cache) :
    Answer × Cache × Trace :=
  match validate_text_input question 500 5 with
  | .error e => (⟨errorMarker ++ e⟩, s, {})
  | .ok _ =>
    match detect_relevant_table env now question s with
    | (.error e, s1, tr1) => (⟨errorMarker ++ e⟩, s1, tr1)
    | (.ok tableName, s1, tr1) =>
      match get_table_info env now tableName s1 with
      | (.error e, s2, tr2) => (⟨errorMarker ++ e⟩, s2, tr1.add tr2)
      | (.ok ti, s2, tr2) =>
        let sres := get_table_sample env now tableName 50 s2
        let tableSample := sres.1.toOption
        let s3 := sres.2.1
        let tr3 := (tr1.add tr2).add sres.2.2
        match generate_query env tableName question ti tableSample with
        | (.error e, tr4) => (⟨errorMarker ++ e⟩, s3, tr3.add tr4)
        | (.ok query, tr4) =>
          let eres := execute_query_fuel (query.length + 1) env query (some tableName)
          let tres := transform_response env question eres.1
          (tres.1, s3, ((tr3.add tr4).add eres.2).add tres.2)

end Assistant

section SafetyLemmas

/-! A whole-word occurrence is in particular a substring occurrence, so the
    substring gate of `execute_query` fires on every whole-word keyword hit. -/

theorem matchCI_isPrefixOf :
    ∀ (w s rest : Chars), matchCI w s = some rest →
      (w.map Char.toLower).isPrefixOf (s.map Char.toLower) = true := by
  intro w
  induction w with
  | nil => intro s rest _; simp [List.isPrefixOf]
  | cons c w ih =>
    intro s rest h
    cases s with
    | nil => simp [matchCI] at h
    | cons d t =>
      rw [matchCI] at h
      split at h
      · rename_i hdc
        simp only [beq_iff_eq] at hdc
        simp only [List.map_cons, List.isPrefixOf, Bool.and_eq_true, beq_iff_eq]
        exact ⟨hdc.symm, ih t rest h⟩
      · simp at h

theorem hasWordCIAux_containsSeq :
    ∀ (s : Chars) (p : Bool) (w : Chars), hasWordCIAux w p s = true →
      containsSeq (w.map Char.toLower) (s.map Char.toLower) = true := by
  intro s
  induction s with
  | nil => intro p w h; simp [hasWordCIAux] at h
  | cons c t ih =>
    intro p w h
    rw [hasWordCIAux] at h
    rw [Bool.or_eq_true] at h
    rw [List.map_cons, containsSeq, Bool.or_eq_true]
    rcases h with h | h
    · rw [Bool.and_eq_true] at h
      obtain ⟨-, hm⟩ := h
      cases hmc : matchCI w (c :: t) with
      | none => rw [hmc] at hm; simp at hm
      | some rest =>
        left
        have := matchCI_isPrefixOf w (c :: t) rest hmc
        simpa using this
    · right
      exact ih (isWordChar c) w h

theorem hasWordCI_containsCI (w s : Chars) (h : hasWordCI w s = true) :
    containsCI w s = true :=
  hasWordCIAux_containsSeq s false w h

end SafetyLemmas

section ClaimEnvs

/-- A minimal environment: LLM unavailable, empty database, empty result
    sets.  The claims that use it only exercise branches that do not consult
    the failing parts. -/
def blankEnv : Env :=
  { llm := fun _ => .error "llm unavailable"
    listTables := .ok []
    getColumns := fun _ => .ok []
    getConn := .ok ()
    dbExec := fun _ => .ok [] []
    sampleExec := fun _ _ => .ok [] }

end ClaimEnvs

/-- A non-retrying pass determines `execute_query_fuel` for every fuel. -/
theorem execute_query_fuel_of_inl {env : Env} {q : String} {t : Option String}
    {r : Json × Trace} (h : execute_query_step env q t = .inl r) :
    ∀ fuel, execute_query_fuel fuel env q t = r := by
  intro fuel
  cases fuel with
  | zero => simp [execute_query_fuel, h]
  | succ n => simp [execute_query_fuel, h]

/-- C1: for every SQL text that contains one of the ten forbidden keywords as
    a whole word, in any casing, `execute_query` returns the fixed refusal
    payload `{"error": "Disculpa, no tengo permisos para hacer eso."}` with
    an all-zero effect trace: it returns before running the optimizer and
    before touching the database. -/
theorem claim_C1 (env : Env) (query : String) (tableName : Option String)
    (h : ∃ w ∈ forbidden_words, hasWordCI w.data query.data = true) :
    execute_query env query tableName = (refusalJson, {}) := by
  obtain ⟨w, hw, hword⟩ := h
  have hgate : safetyGateBlocks query = true := by
    unfold safetyGateBlocks
    rw [List.any_eq_true]
    exact ⟨w, hw, hasWordCI_containsCI _ _ hword⟩
  have hstep : execute_query_step env query tableName =
      .inl (Json.obj [("error", Json.str refusalMessage)], {}) := by
    unfold execute_query_step
    rw [if_pos hgate]
  unfold execute_query
  rw [execute_query_fuel_of_inl hstep]
  rfl

/-- Witness for C1 at a concrete forbidden statement. -/
theorem claim_C1_witness :
    execute_query blankEnv "DROP TABLE productos" none = (refusalJson, {}) :=
  claim_C1 blankEnv "DROP TABLE productos" none (by decide)

/-- C10: the forbidden-keyword gate matches substrings, not whole words:
    `SELECT updated_at FROM productos` contains no forbidden keyword as a
    whole word, yet `execute_query` returns the fixed refusal payload without
    executing anything (because `updated_at` contains `UPDATE`). -/
theorem claim_C10 :
    (∀ w ∈ forbidden_words,
       hasWordCI w.data "SELECT updated_at FROM productos".data = false) ∧
    execute_query blankEnv "SELECT updated_at FROM productos" (some "productos") =
      (refusalJson, {}) := by
  constructor
  · decide
  · decide

/-- C2 counterexample: `SELECT 1 -- nota` contains an inline SQL comment
    marker, yet the gate of `execute_query` does not refuse it: the statement
    is optimized and executed (one database call) and the row-list JSON is
    returned, not the refusal payload. -/
theorem claim_C2_counterexample :
    containsSeq ('-' :: '-' :: []) "SELECT 1 -- nota".data = true ∧
    execute_query blankEnv "SELECT 1 -- nota" none =
      ("[]", { dbExecs := 1, optimizes := 1 }) ∧
    ("[]" : String) ≠ refusalJson := by
  refine ⟨by decide, by decide, by decide⟩

/-- C2 (amended): the comment-marker and EXEC/EXECUTE patterns are enforced
    by `SQLValidator.validate_sql_query` — which raises a `ValidationError`
    rather than returning a refusal, and which `execute_query` never calls —
    while the gate actually applied before execution checks only the ten
    forbidden keywords: a statement with an inline comment marker passes the
    executor's gate and reaches the database. -/
theorem claim_C2 :
    (∀ q : String, q ≠ "" → q.length ≤ 10000 →
      (containsSeq ('-' :: '-' :: []) q.data || hasBlockComment q.data ||
       hasWordCI "EXEC".data q.data || hasWordCI "EXECUTE".data q.data) = true →
      validate_sql_query q = .error "La consulta contiene patrones no permitidos") ∧
    safetyGateBlocks "SELECT 1 -- nota" = false ∧
    (execute_query blankEnv "SELECT 1 -- nota" none).2.dbExecs = 1 := by
  refine ⟨?_, by decide, by decide⟩
  intro q hne hlen hpat
  have hmatch : matchesDangerousPatterns q.data = true := by
    unfold matchesDangerousPatterns
    simp only [Bool.or_eq_true] at hpat ⊢
    tauto
  unfold validate_sql_query
  rw [if_neg hne, if_neg (by omega), if_pos hmatch]

/-- Witness for the amended C2 at the concrete comment-marker statement. -/
theorem claim_C2_witness :
    validate_sql_query "SELECT 1 -- nota" =
      .error "La consulta contiene patrones no permitidos" :=
  claim_C2.1 "SELECT 1 -- nota" (by decide) (by decide) (by decide)

/-- On a query the markdown fix leaves unchanged, `execute_query_step` never
    requests a retry, and the failed attempt costs at most one database
    call. -/
theorem execute_query_step_no_retry (env : Env) (q : String) (t : Option String)
    (h : fix_markdown_artifacts q = q) :
    ∃ r, execute_query_step env q t = .inl r ∧ r.2.dbExecs ≤ 1 := by
  unfold execute_query_step
  cases hg : safetyGateBlocks q
  · simp only [Bool.false_eq_true, if_false]
    cases env.getConn with
    | error e => exact ⟨_, rfl, by simp⟩
    | ok u =>
      simp only []
      cases env.dbExec (validate_and_enhance_query q (t.getD "")).1 with
      | ok keys rows => exact ⟨_, rfl, by simp⟩
      | sqlError msg =>
        simp only [h, ne_eq, not_true_eq_false, if_false, ite_self]
        exact ⟨_, rfl, by simp⟩
      | otherError msg => exact ⟨_, rfl, by simp⟩
  · simp only [if_true]
    exact ⟨_, rfl, by simp⟩

/-- C7 counterexample: a clean query (`SELECT nombre FROM productos LIMIT
    10`) that the optimizer leaves unchanged fails with an error message
    containing markdown fences, so the failure is diagnosed as auto-fixable
    `markdown_artifacts` while the optimized text equals the original — the
    conditions of the claim — yet `execute_query` performs exactly one
    database call: no retry happens, because the re-applied markdown fix
    returns the query unchanged. -/
theorem claim_C7_counterexample :
    (diagnose_query_error "syntax error near ```sql"
       (validate_and_enhance_query "SELECT nombre FROM productos LIMIT 10"
         "productos").1).error_type = "markdown_artifacts" ∧
    (diagnose_query_error "syntax error near ```sql"
       (validate_and_enhance_query "SELECT nombre FROM productos LIMIT 10"
         "productos").1).auto_fix_available = true ∧
    (validate_and_enhance_query "SELECT nombre FROM productos LIMIT 10"
       "productos").1 = "SELECT nombre FROM productos LIMIT 10" ∧
    (execute_query
       { blankEnv with dbExec := fun _ => .sqlError "syntax error near ```sql" }
       "SELECT nombre FROM productos LIMIT 10"
       (some "productos")).2.dbExecs = 1 := by
  refine ⟨by decide, by decide, by decide, by decide⟩

/-- C7 (amended): when execution fails and the error is diagnosed as
    `markdown_artifacts` while the optimized text equalled the original, the
    re-applied markdown fix leaves the (already markdown-clean) query
    unchanged, so the retry branch is not taken: for any query fixed by
    `fix_markdown_artifacts`, `execute_query` is independent of the retry
    fuel and performs at most one database call — execution is never
    retried. -/
theorem claim_C7 (env : Env) (q : String) (t : Option String) (f1 f2 : Nat)
    (h : fix_markdown_artifacts q = q) :
    execute_query_fuel f1 env q t = execute_query_fuel f2 env q t ∧
    (execute_query_fuel f1 env q t).2.dbExecs ≤ 1 := by
  obtain ⟨r, hstep, hdb⟩ := execute_query_step_no_retry env q t h
  rw [execute_query_fuel_of_inl hstep, execute_query_fuel_of_inl hstep]
  exact ⟨rfl, hdb⟩

/-- C8 counterexample: a completion call that succeeds with the empty string
    makes `generate_query` return the empty string silently (no error). -/
theorem claim_C8_counterexample :
    generate_query { blankEnv with llm := fun _ => .ok "" }
      "productos" "¿Cuántos productos hay?" [("nombre", "VARCHAR(50)")] none =
      (.ok "", { llmCalls := 1 }) := by
  rfl

/-- C8 (amended): `generate_query` fails with `Error generando consulta: …`
    exactly when the completion call itself fails; a successful completion is
    returned after cleanup — and the cleaned text, hence the returned SQL,
    may be the empty string. -/
theorem claim_C8 :
    (∀ (env : Env) (tn q : String) (ti : TableInfo) (smp : Option TableSample)
       (e : String), env.llm (generateQueryPrompt tn q ti smp) = .error e →
       generate_query env tn q ti smp =
         (.error ("Error generando consulta: " ++ e), { llmCalls := 1 })) ∧
    (∀ (env : Env) (tn q : String) (ti : TableInfo) (smp : Option TableSample)
       (r : String), env.llm (generateQueryPrompt tn q ti smp) = .ok r →
       generate_query env tn q ti smp =
         (.ok (cleanGeneratedQuery r), { llmCalls := 1 })) := by
  constructor
  · intro env tn q ti smp e h
    unfold generate_query
    rw [h]
  · intro env tn q ti smp r h
    unfold generate_query
    rw [h]

/-- Witness for the amended C8: a failing completion yields the generation
    error. -/
theorem claim_C8_witness :
    generate_query { blankEnv with llm := fun _ => .error "connection refused" }
      "productos" "¿Cuántos productos hay?" [("nombre", "VARCHAR(50)")] none =
      (.error ("Error generando consulta: " ++ "connection refused"),
       { llmCalls := 1 }) :=
  claim_C8.1 _ "productos" "¿Cuántos productos hay?" [("nombre", "VARCHAR(50)")]
    none "connection refused" rfl

theorem cacheFind_eq_none_find? {s : Cache} {k : String}
    (h : cacheFind s k = none) : s.find? (fun kv => kv.1 == k) = none := by
  unfold cacheFind at h
  exact Option.map_eq_none.mp h

theorem cacheFind_append_single {s : Cache} {k : String} (v : CacheVal)
    (h : cacheFind s k = none) : cacheFind (s ++ [(k, v)]) k = some v := by
  unfold cacheFind
  rw [List.find?_append, cacheFind_eq_none_find? h]
  simp [List.find?]

theorem cacheSet_append_of_none {s : Cache} {k : String} (v : CacheVal)
    (h : cacheFind s k = none) : cacheSet s k v = s ++ [(k, v)] := by
  unfold cacheSet
  rw [cacheFind_eq_none_find? h]
  rfl

theorem cacheSet_replace_last {s : Cache} {k : String} (v v' : CacheVal)
    (h : cacheFind s k = none) :
    cacheSet (s ++ [(k, v)]) k v' = s ++ [(k, v')] := by
  have hf := cacheFind_eq_none_find? h
  have hfull : (s ++ [(k, v)]).find? (fun kv => kv.1 == k) = some (k, v) := by
    rw [List.find?_append, hf]
    simp [List.find?]
  unfold cacheSet
  rw [hfull]
  simp only [Option.isSome_some, if_true, List.map_append]
  congr 1
  · have hall := List.find?_eq_none.mp hf
    calc s.map (fun kv => if kv.1 == k then (k, v') else kv)
        = s.map id := List.map_congr_left (fun kv hm => by
            rw [if_neg]
            · rfl
            · exact fun hc => hall kv hm hc)
      _ = s := List.map_id s
  · simp

/-- C5: a `get_table_info` call on an uncached table introspects once and
    stores the schema with the call time; a second call within the 1-hour
    window returns the cached value with the cache unchanged and no
    introspection; a call after the window expires introspects exactly once
    more and refreshes the entry's timestamp. -/
theorem claim_C5 (env : Env) (tname : String) (ts : List String)
    (cols : TableInfo) (s0 : Cache) (t0 t1 t2 : Nat)
    (hts : env.listTables = .ok ts) (hmem : tname ∈ ts)
    (hcols : env.getColumns tname = .ok cols)
    (hnone : cacheFind s0 tname = none) (hsize : s0.length < MAX_CACHE_SIZE)
    (hfresh : t1 - t0 < CACHE_EXPIRY_SECONDS)
    (hexp : CACHE_EXPIRY_SECONDS ≤ t2 - t0) :
    get_table_info env t0 tname s0 =
      (.ok cols,
       s0 ++ [(tname, .tbl { table_info := some cols, timestamp := some t0 })],
       { introspections := 1 }) ∧
    get_table_info env t1 tname
        (s0 ++ [(tname, .tbl { table_info := some cols, timestamp := some t0 })]) =
      (.ok cols,
       s0 ++ [(tname, .tbl { table_info := some cols, timestamp := some t0 })],
       {}) ∧
    get_table_info env t2 tname
        (s0 ++ [(tname, .tbl { table_info := some cols, timestamp := some t0 })]) =
      (.ok cols,
       s0 ++ [(tname, .tbl { table_info := some cols, timestamp := some t2 })],
       { introspections := 1 }) := by
  have hclear0 : clear_cache_if_needed s0 = s0 := by
    unfold clear_cache_if_needed
    rw [if_neg]
    unfold MAX_CACHE_SIZE at hsize ⊢
    omega
  have hfind1 := cacheFind_append_single
    (CacheVal.tbl { table_info := some cols, timestamp := some t0 }) hnone
  refine ⟨?_, ?_, ?_⟩
  · unfold get_table_info
    rw [hnone, hclear0, hts]
    simp only [if_pos hmem, hcols, hnone,
      cacheSet_append_of_none _ hnone]
  · unfold get_table_info
    rw [hfind1]
    simp only [if_pos hfresh]
  · have hclear1 : clear_cache_if_needed
        (s0 ++ [(tname, CacheVal.tbl { table_info := some cols, timestamp := some t0 })]) =
        s0 ++ [(tname, CacheVal.tbl { table_info := some cols, timestamp := some t0 })] := by
      unfold clear_cache_if_needed
      rw [if_neg]
      simp only [List.length_append, List.length_cons, List.length_nil]
      unfold MAX_CACHE_SIZE at hsize ⊢
      omega
    unfold get_table_info
    rw [hfind1]
    have hnotfresh : ¬ (t2 - t0 < CACHE_EXPIRY_SECONDS) := by omega
    simp only [if_neg hnotfresh, hclear1, hts, if_pos hmem, hcols, hfind1,
      cacheSet_replace_last _ _ hnone]

/-- Witness for C5 at a concrete environment and timestamps. -/
theorem claim_C5_witness :
    get_table_info
      { blankEnv with listTables := .ok ["productos"],
                      getColumns := fun _ => .ok [("nombre", "VARCHAR(50)")] }
      0 "productos" [] =
      (.ok [("nombre", "VARCHAR(50)")],
       [("productos", .tbl { table_info := some [("nombre", "VARCHAR(50)")],
                             timestamp := some 0 })],
       { introspections := 1 }) ∧
    get_table_info
      { blankEnv with listTables := .ok ["productos"],
                      getColumns := fun _ => .ok [("nombre", "VARCHAR(50)")] }
      1800 "productos"
      [("productos", .tbl { table_info := some [("nombre", "VARCHAR(50)")],
                            timestamp := some 0 })] =
      (.ok [("nombre", "VARCHAR(50)")],
       [("productos", .tbl { table_info := some [("nombre", "VARCHAR(50)")],
                             timestamp := some 0 })],
       {}) ∧
    get_table_info
      { blankEnv with listTables := .ok ["productos"],
                      getColumns := fun _ => .ok [("nombre", "VARCHAR(50)")] }
      3600 "productos"
      [("productos", .tbl { table_info := some [("nombre", "VARCHAR(50)")],
                            timestamp := some 0 })] =
      (.ok [("nombre", "VARCHAR(50)")],
       [("productos", .tbl { table_info := some [("nombre", "VARCHAR(50)")],
                             timestamp := some 3600 })],
       { introspections := 1 }) := by
  have h := claim_C5
    { blankEnv with listTables := .ok ["productos"],
                    getColumns := fun _ => .ok [("nombre", "VARCHAR(50)")] }
    "productos" ["productos"] [("nombre", "VARCHAR(50)")] [] 0 1800 3600
    rfl (by decide) rfl rfl (by decide) (by decide) (by decide)
  simpa using h

/-- C4 counterexample.  First conjunct: `SELECT x LIM<!--c-->IT 5` has no
    `LIMIT` clause, yet the optimizer appends no `LIMIT 1000` (the markdown
    cleanup joins `LIM`/`IT` into a `LIMIT` clause first).  Second conjunct:
    the pipeline is not idempotent — re-running it on its own output for
    `SELECT 1;; LIMIT 5` changes the text again and reports a warning. -/
theorem claim_C4_counterexample :
    (hasLimitNum "SELECT x LIM<!--c-->IT 5".data = false ∧
     (validate_and_enhance_query "SELECT x LIM<!--c-->IT 5" "").1 =
       "SELECT x LIMIT 5" ∧
     containsSeq "LIMIT 1000".data
       ((validate_and_enhance_query "SELECT x LIM<!--c-->IT 5" "").1).data
       = false) ∧
    ((validate_and_enhance_query "SELECT 1;; LIMIT 5" "").1 =
       "SELECT 1; LIMIT 5" ∧
     validate_and_enhance_query "SELECT 1; LIMIT 5" "" =
       ("SELECT 1 LIMIT 5", ["Se corrigieron problemas de sintaxis SQL"])) := by
  refine ⟨⟨by decide, by decide, by decide⟩, by decide, by decide⟩

theorem dropWhile_idem (p : Char → Bool) (l : Chars) :
    (l.dropWhile p).dropWhile p = l.dropWhile p := by
  induction l with
  | nil => rfl
  | cons c cs ih =>
    rw [List.dropWhile_cons]
    split
    · exact ih
    · rename_i h
      rw [List.dropWhile_cons, if_neg h]

theorem not_head_of_dropWhile_eq_self {p : Char → Bool} {c : Char} {t : Chars}
    (h : List.dropWhile p (c :: t) = c :: t) : p c = false := by
  by_contra hb
  have hc : p c = true := by
    cases hpc : p c
    · exact absurd hpc hb
    · rfl
  rw [List.dropWhile_cons, if_pos hc] at h
  have := congrArg List.length h
  have hle := length_dropWhile_le p t
  simp only [List.length_cons] at this
  omega

theorem dropTrailWs_eq_reverse (s : Chars) :
    dropTrailWs s = (s.reverse.dropWhile isPySpace).reverse := rfl

theorem dropTrailWs_idem (s : Chars) :
    dropTrailWs (dropTrailWs s) = dropTrailWs s := by
  rw [dropTrailWs_eq_reverse, dropTrailWs_eq_reverse]
  rw [List.reverse_reverse, dropWhile_idem]

theorem exists_append_dropTrailWs (s : Chars) :
    ∃ u, s = dropTrailWs s ++ u := by
  refine ⟨(s.reverse.takeWhile isPySpace).reverse, ?_⟩
  rw [dropTrailWs_eq_reverse]
  rw [← List.reverse_append, List.takeWhile_append_dropWhile, List.reverse_reverse]

theorem dropLeadWs_dropTrailWs {w : Chars} (h : dropLeadWs w = w) :
    dropLeadWs (dropTrailWs w) = dropTrailWs w := by
  obtain ⟨u, hu⟩ := exists_append_dropTrailWs w
  cases hd : dropTrailWs w with
  | nil => rfl
  | cons c r =>
    rw [hd] at hu
    unfold dropLeadWs at h ⊢
    rw [hu] at h
    rw [List.cons_append] at h
    have hc : isPySpace c = false := not_head_of_dropWhile_eq_self h
    rw [List.dropWhile_cons, if_neg (by simp [hc])]

theorem stripWs_idem (z : Chars) : stripWs (stripWs z) = stripWs z := by
  unfold stripWs
  have h1 : dropLeadWs (dropLeadWs z) = dropLeadWs z := dropWhile_idem _ z
  rw [dropLeadWs_dropTrailWs h1, dropTrailWs_idem]

theorem stripWs_fixMarkdown (x : Chars) :
    stripWs (fixMarkdownArtifacts x) = fixMarkdownArtifacts x := by
  unfold fixMarkdownArtifacts
  exact stripWs_idem _

/-- The text component of the optimizer pipeline is the plain composition of
    its three steps (the warning bookkeeping does not alter it). -/
theorem validate_and_enhance_text (q tn : String) :
    (validate_and_enhance_query q tn).1 =
      fix_sql_syntax_issues (add_error_resilience (fix_markdown_artifacts q)) := by
  unfold validate_and_enhance_query
  dsimp only
  split_ifs <;> simp_all

/-- C4 (amended, appending part): for every SQL text whose markdown-cleaned
    form has no `LIMIT` clause, the optimizer result is the syntax-fix of the
    cleaned text with exactly one ` LIMIT 1000` appended. -/
theorem validate_append_limit (q tn : String)
    (h : hasLimitNum (fixMarkdownArtifacts q.data) = false) :
    (validate_and_enhance_query q tn).1 =
      ⟨fixSqlSyntaxIssues (fixMarkdownArtifacts q.data ++ " LIMIT 1000".data)⟩ := by
  rw [validate_and_enhance_text]
  unfold fix_sql_syntax_issues add_error_resilience fix_markdown_artifacts
  unfold addErrorResilience
  simp only [String.data]
  rw [stripWs_fixMarkdown, h]
  simp

/-- A character that triggers none of the optimizer's rewrites: not a
    backtick, semicolon or `<`, and any whitespace is a plain space. -/
def goodChar (c : Char) : Bool :=
  !(c == '`') && !(c == ';') && !(c == '<') && (!(isPySpace c) || c == ' ')

/-- No two adjacent spaces. -/
def noDoubleSpace : Chars → Bool
  | ' ' :: ' ' :: _ => false
  | _ :: cs => noDoubleSpace cs
  | [] => true

/-- An artifact-free SQL text: non-empty, every character inert for the
    markdown / comment / semicolon rewrites, and whitespace already
    normalized (single interior spaces only). -/
def cleanSql (s : Chars) : Bool :=
  !s.isEmpty && s.all goodChar && noDoubleSpace s &&
  !(s.head? == some ' ') && !(s.getLast? == some ' ')

theorem noDoubleSpace_tail {c : Char} {cs : Chars}
    (h : noDoubleSpace (c :: cs) = true) : noDoubleSpace cs = true := by
  cases cs with
  | nil => rfl
  | cons d t =>
    rw [noDoubleSpace.eq_def] at h
    split at h
    · simp at h
    · rename_i heq
      injection heq with h1 h2
      rw [h2]
      exact h
    · rename_i heq
      simp at heq

theorem squeezeWs_id {s : Chars}
    (hsp : ∀ c ∈ s, isPySpace c = true → c = ' ')
    (hnd : noDoubleSpace s = true) : squeezeWs s = s := by
  induction s with
  | nil => rfl
  | cons c cs ih =>
    cases cs with
    | nil =>
      show (if isPySpace c then [' '] else [c]) = [c]
      split
      · rename_i h
        rw [hsp c (by simp) h]
      · rfl
    | cons d t =>
      have ih' := ih (fun x hx hpx => hsp x (by simp [hx]) hpx)
        (noDoubleSpace_tail hnd)
      show (if isPySpace c then
              if isPySpace d then squeezeWs (d :: t)
              else ' ' :: squeezeWs (d :: t)
            else c :: squeezeWs (d :: t)) = c :: d :: t
      split
      · rename_i hc
        split
        · rename_i hd
          exfalso
          have hc' := hsp c (by simp) hc
          have hd' := hsp d (by simp) hd
          rw [hc', hd'] at hnd
          rw [noDoubleSpace.eq_def] at hnd
          simp at hnd
        · rw [ih']
          rw [hsp c (by simp) hc]
      · rw [ih']

theorem dropLeadWs_id {s : Chars}
    (hsp : ∀ c ∈ s, isPySpace c = true → c = ' ')
    (hh : (s.head? == some ' ') = false) : dropLeadWs s = s := by
  cases s with
  | nil => rfl
  | cons c cs =>
    unfold dropLeadWs
    rw [List.dropWhile_cons, if_neg]
    intro hc
    have := hsp c (by simp) hc
    subst this
    simp at hh

theorem dropTrailWs_id {s : Chars}
    (hsp : ∀ c ∈ s, isPySpace c = true → c = ' ')
    (hl : (s.getLast? == some ' ') = false) : dropTrailWs s = s := by
  rw [dropTrailWs_eq_reverse]
  have hrev : s.reverse.dropWhile isPySpace = s.reverse := by
    cases hr : s.reverse with
    | nil => rfl
    | cons c cs =>
      rw [List.dropWhile_cons, if_neg]
      intro hc
      have hmem : c ∈ s := by
        have : c ∈ s.reverse := by rw [hr]; simp
        simpa using this
      have := hsp c hmem hc
      subst this
      have : s.getLast? = some ' ' := by
        rw [← List.head?_reverse, hr]
        rfl
      rw [this] at hl
      simp at hl
  rw [hrev, List.reverse_reverse]

theorem stripWs_id {s : Chars}
    (hsp : ∀ c ∈ s, isPySpace c = true → c = ' ')
    (hh : (s.head? == some ' ') = false)
    (hl : (s.getLast? == some ' ') = false) : stripWs s = s := by
  unfold stripWs
  rw [dropLeadWs_id hsp hh, dropTrailWs_id hsp hl]

theorem removeFenceOpenF_id {s : Chars} (hb : ∀ c ∈ s, ¬ c = '`') :
    ∀ fuel, removeFenceOpenF fuel s = s := by
  induction s with
  | nil => intro fuel; cases fuel <;> rfl
  | cons c cs ih =>
    intro fuel
    cases fuel with
    | zero => rfl
    | succ n =>
      rw [removeFenceOpenF.eq_3]
      · rw [ih (fun x hx => hb x (by simp [hx])) n]
      · intro cs1 hc _
        exact hb c (by simp) hc

theorem removeFenceClose_id {s : Chars} (hb : ∀ c ∈ s, ¬ c = '`') :
    removeFenceClose s = s := by
  induction s with
  | nil => rfl
  | cons c cs ih =>
    rw [removeFenceClose.eq_3]
    · rw [ih (fun x hx => hb x (by simp [hx]))]
    · intro cs1 _ hcs
      have : '`' ∈ cs := by rw [hcs]; simp
      exact hb '`' (by simp [this]) rfl
    · intro cs1 hc _
      exact hb c (by simp) hc

theorem removeHtmlCommentsF_id {s : Chars} (hb : ∀ c ∈ s, ¬ c = '<') :
    ∀ fuel, removeHtmlCommentsF fuel s = s := by
  induction s with
  | nil => intro fuel; cases fuel <;> rfl
  | cons c cs ih =>
    intro fuel
    cases fuel with
    | zero => rfl
    | succ n =>
      rw [removeHtmlCommentsF.eq_3]
      · rw [ih (fun x hx => hb x (by simp [hx])) n]
      · intro cs1 hc _
        exact hb c (by simp) hc

theorem fixSemiLimitF_id {s : Chars} (hb : ∀ c ∈ s, ¬ c = ';') :
    ∀ fuel, fixSemiLimitF fuel s = s := by
  induction s with
  | nil => intro fuel; cases fuel <;> rfl
  | cons c cs ih =>
    intro fuel
    cases fuel with
    | zero => rfl
    | succ n =>
      show (if c == ';' then _ else c :: fixSemiLimitF n cs) = c :: cs
      rw [if_neg (by simpa using hb c (by simp))]
      rw [ih (fun x hx => hb x (by simp [hx])) n]

theorem collapseSemis_id {s : Chars} (hb : ∀ c ∈ s, ¬ c = ';') :
    collapseSemis s = s := by
  induction s with
  | nil => rfl
  | cons c cs ih =>
    have hc : ¬ c = ';' := hb c (by simp)
    rw [collapseSemis.eq_4]
    · rw [ih (fun x hx => hb x (by simp [hx]))]
    · intro hcc
      exact hc hcc

theorem rstripSemis_id {s : Chars} (hb : ∀ c ∈ s, ¬ c = ';') :
    rstripSemis s = s := by
  unfold rstripSemis
  have : s.reverse.dropWhile (· == ';') = s.reverse := by
    cases hr : s.reverse with
    | nil => rfl
    | cons c cs =>
      rw [List.dropWhile_cons, if_neg]
      simp only [beq_iff_eq]
      apply hb
      have : c ∈ s.reverse := by rw [hr]; simp
      simpa using this
  rw [this, List.reverse_reverse]

theorem cleanSql_props {s : Chars} (h : cleanSql s = true) :
    (∀ c ∈ s, ¬ c = '`') ∧ (∀ c ∈ s, ¬ c = ';') ∧ (∀ c ∈ s, ¬ c = '<') ∧
    (∀ c ∈ s, isPySpace c = true → c = ' ') ∧ noDoubleSpace s = true ∧
    (s.head? == some ' ') = false ∧ (s.getLast? == some ' ') = false ∧
    s ≠ [] := by
  unfold cleanSql at h
  simp only [Bool.and_eq_true, List.all_eq_true, Bool.not_eq_true',
    List.isEmpty_eq_false_iff_exists_mem] at h
  obtain ⟨⟨⟨⟨hne, hall⟩, hnd⟩, hh⟩, hl⟩ := h
  have hgc : ∀ c ∈ s, goodChar c = true := hall
  refine ⟨?_, ?_, ?_, ?_, hnd, hh, hl, ?_⟩
  · intro c hc
    have := hgc c hc
    unfold goodChar at this
    simp only [Bool.and_eq_true, Bool.not_eq_true', beq_eq_false_iff_ne,
      ne_eq] at this
    exact this.1.1.1
  · intro c hc
    have := hgc c hc
    unfold goodChar at this
    simp only [Bool.and_eq_true, Bool.not_eq_true', beq_eq_false_iff_ne,
      ne_eq] at this
    exact this.1.1.2
  · intro c hc
    have := hgc c hc
    unfold goodChar at this
    simp only [Bool.and_eq_true, Bool.not_eq_true', beq_eq_false_iff_ne,
      ne_eq] at this
    exact this.1.2
  · intro c hc hsp
    have := hgc c hc
    unfold goodChar at this
    simp only [Bool.and_eq_true, Bool.or_eq_true, Bool.not_eq_true',
      beq_iff_eq] at this
    rcases this.2 with h2 | h2
    · rw [hsp] at h2; exact absurd h2 (by simp)
    · exact h2
  · obtain ⟨x, hx⟩ := hne
    exact List.ne_nil_of_mem hx

theorem fixMarkdown_id {s : Chars}
    (hb : ∀ c ∈ s, ¬ c = '`') (hlt : ∀ c ∈ s, ¬ c = '<')
    (hsp : ∀ c ∈ s, isPySpace c = true → c = ' ')
    (hnd : noDoubleSpace s = true)
    (hh : (s.head? == some ' ') = false)
    (hl : (s.getLast? == some ' ') = false) :
    fixMarkdownArtifacts s = s := by
  unfold fixMarkdownArtifacts removeFenceOpen removeHtmlComments joinSplitWs
  rw [removeFenceOpenF_id hb, removeFenceClose_id hb, removeHtmlCommentsF_id hlt,
    squeezeWs_id hsp hnd, stripWs_id hsp hh hl, stripWs_id hsp hh hl]

theorem fixSqlSyntax_id {s : Chars}
    (hsemi : ∀ c ∈ s, ¬ c = ';')
    (hsp : ∀ c ∈ s, isPySpace c = true → c = ' ')
    (hnd : noDoubleSpace s = true)
    (hh : (s.head? == some ' ') = false)
    (hl : (s.getLast? == some ' ') = false) :
    fixSqlSyntaxIssues s = s := by
  unfold fixSqlSyntaxIssues fixSemiLimit
  rw [squeezeWs_id hsp hnd, stripWs_id hsp hh hl, fixSemiLimitF_id hsemi,
    collapseSemis_id hsemi, rstripSemis_id hsemi]

/-- On a clean text that already has a LIMIT clause, the whole optimizer
    pipeline is the identity with no warnings. -/
theorem validate_clean_id (q tn : String) (hc : cleanSql q.data = true)
    (hlim : hasLimitNum q.data = true) :
    validate_and_enhance_query q tn = (q, []) := by
  obtain ⟨hb, hsemi, hlt, hsp, hnd, hh, hl, hne⟩ := cleanSql_props hc
  have hmd : fix_markdown_artifacts q = q := by
    unfold fix_markdown_artifacts
    rw [fixMarkdown_id hb hlt hsp hnd hh hl]
  have hres : add_error_resilience q = q := by
    unfold add_error_resilience addErrorResilience
    simp only [String.data]
    rw [stripWs_id hsp hh hl, if_pos hlim]
  have hsyn : fix_sql_syntax_issues q = q := by
    unfold fix_sql_syntax_issues
    rw [fixSqlSyntax_id hsemi hsp hnd hh hl]
  unfold validate_and_enhance_query
  simp [hmd, hres, hsyn]

theorem hasLimitNumAux_append_tail :
    ∀ (s : Chars) (b : Bool),
      hasLimitNumAux b (s ++ " LIMIT 1000".data) = true := by
  intro s
  induction s with
  | nil => decide
  | cons c cs ih =>
    intro b
    rw [List.cons_append, hasLimitNumAux, ih (isWordChar c), Bool.or_true]

theorem noDoubleSpace_append_tail :
    ∀ (s : Chars), noDoubleSpace s = true →
      (s.getLast? == some ' ') = false →
      noDoubleSpace (s ++ " LIMIT 1000".data) = true := by
  intro s
  induction s with
  | nil => intro _ _; decide
  | cons c cs ih =>
    intro hnd hl
    cases cs with
    | nil =>
      have hc : ¬ c = ' ' := by
        intro hcc
        subst hcc
        simp at hl
      rw [List.cons_append, List.nil_append]
      rw [noDoubleSpace.eq_def]
      split
      · rename_i heq
        injection heq with h1 h2
        exact absurd h1 hc
      · rename_i heq
        injection heq with h1 h2
        rw [← h2]
        decide
      · rename_i heq
        simp at heq
    | cons d t =>
      have hl' : ((d :: t).getLast? == some ' ') = false := by
        rw [← List.getLast?_cons_cons (a := c)]
        exact hl
      have ih' := ih (noDoubleSpace_tail hnd) hl'
      rw [List.cons_append]
      rw [noDoubleSpace.eq_def]
      split
      · rename_i heq
        injection heq with h1 h2
        have h2' : d = ' ' := by
          have : ((d :: t) ++ " LIMIT 1000".data).head? = some ' ' := by
            rw [h2]; rfl
          rw [List.cons_append] at this
          simp at this
          exact this
        subst h1
        subst h2'
        rw [noDoubleSpace.eq_def] at hnd
        simp at hnd
      · rename_i heq
        injection heq with h1 h2
        rw [← h2]
        exact ih'
      · rename_i heq
        simp at heq

/-- C4 (amended, idempotence part): on artifact-free statements — no
    backticks, `<` or semicolons, whitespace already normalized — a second
    run of the optimizer on its own output returns the same text with an
    empty warnings list. -/
theorem validate_clean_idem (q : String) (tn tn' : String)
    (hc : cleanSql q.data = true) :
    validate_and_enhance_query ((validate_and_enhance_query q tn).1) tn' =
      ((validate_and_enhance_query q tn).1, []) := by
  obtain ⟨hb, hsemi, hlt, hsp, hnd, hh, hl, hne⟩ := cleanSql_props hc
  cases hlim : hasLimitNum q.data with
  | true =>
    rw [validate_clean_id q tn hc hlim]
    exact validate_clean_id q tn' hc hlim
  | false =>
    have hmd : fixMarkdownArtifacts q.data = q.data :=
      fixMarkdown_id hb hlt hsp hnd hh hl
    obtain ⟨x, xs, hq⟩ : ∃ x xs, q.data = x :: xs := by
      cases hqd : q.data with
      | nil => exact absurd hqd hne
      | cons x xs => exact ⟨x, xs, rfl⟩
    -- properties of the appended text
    have htail : ∀ c ∈ (" LIMIT 1000".data : Chars),
        ¬ c = '`' ∧ ¬ c = ';' ∧ ¬ c = '<' ∧ (isPySpace c = true → c = ' ') := by
      decide
    have hb' : ∀ c ∈ q.data ++ " LIMIT 1000".data, ¬ c = '`' := by
      intro c hcm
      rcases List.mem_append.mp hcm with hm | hm
      · exact hb c hm
      · exact (htail c hm).1
    have hsemi' : ∀ c ∈ q.data ++ " LIMIT 1000".data, ¬ c = ';' := by
      intro c hcm
      rcases List.mem_append.mp hcm with hm | hm
      · exact hsemi c hm
      · exact (htail c hm).2.1
    have hlt' : ∀ c ∈ q.data ++ " LIMIT 1000".data, ¬ c = '<' := by
      intro c hcm
      rcases List.mem_append.mp hcm with hm | hm
      · exact hlt c hm
      · exact (htail c hm).2.2.1
    have hsp' : ∀ c ∈ q.data ++ " LIMIT 1000".data,
        isPySpace c = true → c = ' ' := by
      intro c hcm
      rcases List.mem_append.mp hcm with hm | hm
      · exact hsp c hm
      · exact (htail c hm).2.2.2
    have hnd' : noDoubleSpace (q.data ++ " LIMIT 1000".data) = true :=
      noDoubleSpace_append_tail q.data hnd hl
    have hh' : ((q.data ++ " LIMIT 1000".data).head? == some ' ') = false := by
      rw [hq, List.cons_append]
      rw [hq] at hh
      simpa using hh
    have hl' : ((q.data ++ " LIMIT 1000".data).getLast? == some ' ') = false := by
      rw [List.getLast?_append]
      rfl
    have hlim' : hasLimitNum (q.data ++ " LIMIT 1000".data) = true :=
      hasLimitNumAux_append_tail q.data false
    -- the first pass appends LIMIT 1000 and fixes nothing else
    have hfst : (validate_and_enhance_query q tn).1 =
        ⟨q.data ++ " LIMIT 1000".data⟩ := by
      rw [validate_append_limit q tn (by rw [hmd]; exact hlim)]
      rw [hmd]
      rw [fixSqlSyntax_id hsemi' hsp' hnd' hh' hl']
    rw [hfst]
    have hc' : cleanSql (q.data ++ " LIMIT 1000".data) = true := by
      unfold cleanSql
      simp only [Bool.and_eq_true, List.all_eq_true, Bool.not_eq_true']
      refine ⟨⟨⟨⟨?_, ?_⟩, hnd'⟩, hh'⟩, hl'⟩
      · rw [hq]
        simp
      · intro c hcm
        unfold goodChar
        simp only [Bool.and_eq_true, Bool.not_eq_true', beq_eq_false_iff_ne,
          ne_eq, Bool.or_eq_true, Bool.not_eq_true, beq_iff_eq]
        refine ⟨⟨⟨hb' c hcm, hsemi' c hcm⟩, hlt' c hcm⟩, ?_⟩
        cases hps : isPySpace c
        · left; rfl
        · right; exact hsp' c hcm hps
    exact validate_clean_id ⟨q.data ++ " LIMIT 1000".data⟩ tn' hc' hlim'

/-- C4 (amended): for every SQL text whose markdown-cleaned form has no
    `LIMIT` clause, the optimizer result is the syntax-fix of the cleaned
    text with exactly one ` LIMIT 1000` appended (the hypothesis must be on
    the cleaned text: artifact stripping can join fragments into a `LIMIT`
    clause); and on artifact-free statements — no backticks, `<` or
    semicolons, and whitespace already normalized — the pipeline is
    idempotent: a second run on its own output returns the same text with an
    empty warnings list.  On other inputs idempotence can fail. -/
theorem claim_C4 :
    (∀ q tn : String, hasLimitNum (fixMarkdownArtifacts q.data) = false →
      (validate_and_enhance_query q tn).1 =
        ⟨fixSqlSyntaxIssues (fixMarkdownArtifacts q.data ++ " LIMIT 1000".data)⟩) ∧
    (∀ q tn tn' : String, cleanSql q.data = true →
      validate_and_enhance_query ((validate_and_enhance_query q tn).1) tn' =
        ((validate_and_enhance_query q tn).1, [])) :=
  ⟨validate_append_limit, validate_clean_idem⟩

/-- Witness for the amended C4 on a concrete clean statement. -/
theorem claim_C4_witness :
    (validate_and_enhance_query "SELECT nombre FROM productos" "").1 =
      ⟨fixSqlSyntaxIssues
        (fixMarkdownArtifacts "SELECT nombre FROM productos".data ++
          " LIMIT 1000".data)⟩ ∧
    validate_and_enhance_query
        ((validate_and_enhance_query "SELECT nombre FROM productos" "").1) "" =
      ((validate_and_enhance_query "SELECT nombre FROM productos" "").1, []) :=
  ⟨claim_C4.1 "SELECT nombre FROM productos" "" (by decide),
   claim_C4.2 "SELECT nombre FROM productos" "" "" (by decide)⟩

/-- C6 counterexample: with 101 distinct keys the eviction pass removes 50
    and keeps 51 — more than half the configured maximum (50). -/
theorem claim_C6_counterexample :
    ((List.range 101).map (fun i => (toString i, CacheVal.tbl {}))).length
        > MAX_CACHE_SIZE ∧
    (clear_cache_if_needed
        ((List.range 101).map (fun i => (toString i, CacheVal.tbl {})))).length
      = 51 ∧
    ¬ ((clear_cache_if_needed
        ((List.range 101).map (fun i => (toString i, CacheVal.tbl {})))).length
      ≤ MAX_CACHE_SIZE / 2) := by
  refine ⟨by decide, by decide, by decide⟩

/-- C6 (amended): when the cache holds `n > MAX_CACHE_SIZE` keys, the next
    eviction pass deletes the `n / 2` oldest keys in insertion order,
    retaining the most recently inserted `n - n / 2` keys — about half of
    the current count (not at most half of the maximum: with 101 keys, 51
    remain). -/
theorem claim_C6 (s : Cache) (h : s.length > MAX_CACHE_SIZE) :
    clear_cache_if_needed s = s.drop (s.length / 2) ∧
    (clear_cache_if_needed s).length = s.length - s.length / 2 := by
  unfold clear_cache_if_needed
  rw [if_pos h]
  exact ⟨rfl, by simp⟩

/-- Witness for the amended C6 on the concrete 101-key cache. -/
theorem claim_C6_witness :
    clear_cache_if_needed
        ((List.range 101).map (fun i => (toString i, CacheVal.tbl {}))) =
      ((List.range 101).map (fun i => (toString i, CacheVal.tbl {}))).drop 50 ∧
    (clear_cache_if_needed
        ((List.range 101).map (fun i => (toString i, CacheVal.tbl {})))).length
      = 51 := by
  have h := claim_C6 ((List.range 101).map (fun i => (toString i, CacheVal.tbl {})))
    (by decide)
  refine ⟨?_, ?_⟩
  · rw [h.1]; decide
  · rw [h.2]; decide

/-- C9: when schema introspection yields no tables, `detect_relevant_table`
    fails before any LLM call, so `process_question` (started on an empty
    cache) answers every question with the fixed error-marker string and the
    LLM is never invoked. -/
theorem claim_C9 (env : Env) (now : Nat) (question : String)
    (hempty : env.listTables = .ok []) :
    (∃ rest, (process_question env now question []).1.answer = errorMarker ++ rest) ∧
    ((process_question env now question []).2.2).llmCalls = 0 := by
  have hdb : get_db_info env now [] =
      ([], [("db_info", .dbInfo [] now)], { introspections := 1 }) := by
    unfold get_db_info cacheFind cacheSet
    rw [hempty]
    rfl
  have hdet : detect_relevant_table env now question [] =
      (.error "No se pudo obtener información de la base de datos",
       [("db_info", .dbInfo [] now)], { introspections := 1 }) := by
    unfold detect_relevant_table
    rw [hdb]
  unfold process_question
  cases hv : validate_text_input question 500 5 with
  | error e => exact ⟨⟨e, rfl⟩, rfl⟩
  | ok b =>
    rw [hdet]
    exact ⟨⟨_, rfl⟩, rfl⟩

/-- Witness for C9 on the empty-database environment. -/
theorem claim_C9_witness :
    (∃ rest,
      (process_question blankEnv 0 "¿Cuántos productos hay?" []).1.answer =
        errorMarker ++ rest) ∧
    ((process_question blankEnv 0 "¿Cuántos productos hay?" []).2.2).llmCalls = 0 :=
  claim_C9 blankEnv 0 "¿Cuántos productos hay?" rfl

/-- C3 counterexample: a database-level execution failure is absorbed by
    `execute_query`/`transform_response` into `Lo siento, hubo un error: …`,
    an answer that does not carry the fixed marker
    `Error procesando tu pregunta: `. -/
theorem claim_C3_counterexample :
    (process_question
      { llm := fun _ => .ok "SELECT nombre FROM productos"
        listTables := .ok ["productos"]
        getColumns := fun _ => .ok [("nombre", "VARCHAR(50)")]
        getConn := .ok ()
        dbExec := fun _ => .otherError "deadlock detected"
        sampleExec := fun _ _ => .ok [] }
      0 "¿Cuántos productos hay?" []).1 =
      ⟨"Lo siento, hubo un error: deadlock detected"⟩ ∧
    ¬ (errorMarker.data.isPrefixOf
        "Lo siento, hubo un error: deadlock detected".data = true) := by
  refine ⟨by decide, by decide⟩

/-- An error payload (first field `"error"` with a string message) is
    absorbed by `transform_response` into the `Lo siento` answer without any
    LLM call. -/
theorem transform_response_error_payload (env : Env) (q m : String)
    (rest : List (String × Json)) :
    transform_response env q (Json.obj (("error", Json.str m) :: rest)) =
      (⟨"Lo siento, hubo un error: " ++ m⟩, {}) := rfl

/-- Shape of one `execute_query` pass: every produced payload — final or the
    would-be-retry fallback — is either a row array or a JSON object whose
    first field is an error message. -/
theorem execute_query_step_shape (env : Env) (q : String) (t : Option String) :
    (∀ r, execute_query_step env q t = .inl r →
       (∃ xs, r.1 = Json.arr xs) ∨
       (∃ m rest, r.1 = Json.obj (("error", Json.str m) :: rest))) ∧
    (∀ fq fb, execute_query_step env q t = .inr (fq, fb) →
       ∃ m rest, fb.1 = Json.obj (("error", Json.str m) :: rest)) := by
  constructor
  · intro r h
    unfold execute_query_step at h
    split at h
    · simp only [Sum.inl.injEq] at h
      subst h
      exact .inr ⟨refusalMessage, [], rfl⟩
    · split at h
      · simp only [Sum.inl.injEq] at h
        subst h
        exact .inr ⟨_, [], rfl⟩
      · dsimp only at h
        split at h
        · simp only [Sum.inl.injEq] at h
          subst h
          exact .inl ⟨_, rfl⟩
        · split at h
          · simp at h
          · simp only [Sum.inl.injEq] at h
            subst h
            exact .inr ⟨_, _, rfl⟩
        · simp only [Sum.inl.injEq] at h
          subst h
          exact .inr ⟨_, [], rfl⟩
  · intro fq fb h
    unfold execute_query_step at h
    split at h
    · simp at h
    · split at h
      · simp at h
      · dsimp only at h
        split at h
        · simp at h
        · split at h
          · simp only [Sum.inr.injEq, Prod.mk.injEq] at h
            obtain ⟨h1, h2⟩ := h
            subst h2
            exact ⟨_, _, rfl⟩
          · simp at h
        · simp at h

/-- `execute_query` never raises: for any fuel its payload is either a row
    array or an object whose first field is an error message. -/
theorem execute_query_shape :
    ∀ (fuel : Nat) (env : Env) (q : String) (t : Option String),
      (∃ xs, (execute_query_fuel fuel env q t).1 = Json.arr xs) ∨
      (∃ m rest, (execute_query_fuel fuel env q t).1 =
        Json.obj (("error", Json.str m) :: rest)) := by
  intro fuel
  induction fuel with
  | zero =>
    intro env q t
    rw [execute_query_fuel]
    cases hstep : execute_query_step env q t with
    | inl r =>
      exact (execute_query_step_shape env q t).1 r hstep
    | inr p =>
      obtain ⟨fq, fb⟩ := p
      exact .inr ((execute_query_step_shape env q t).2 fq fb hstep)
  | succ n ih =>
    intro env q t
    rw [execute_query_fuel]
    cases hstep : execute_query_step env q t with
    | inl r =>
      exact (execute_query_step_shape env q t).1 r hstep
    | inr p =>
      obtain ⟨fq, fb⟩ := p
      simpa using ih env fq t

/-- When the composition LLM fails, a non-error list payload falls back to
    the deterministic count answer (for the possibly truncated list). -/
theorem transform_response_llm_fallback (env : Env) (q : String)
    (xs : List Json) (e : String)
    (hkey : errorKeyOf (Json.arr xs) = none)
    (hne : xs ≠ [])
    (hllm : ∀ p, env.llm p = .error e) :
    transform_response env q (Json.arr xs) =
      (⟨"Encontré " ++ toString (min xs.length 50) ++ " resultado" ++
        (if min xs.length 50 ≠ 1 then "s" else "") ++ "."⟩,
       { llmCalls := 1 }) := by
  unfold transform_response
  rw [hkey]
  have hfalsy : jsonFalsy (Json.arr xs) = false := by
    cases xs with
    | nil => exact absurd rfl hne
    | cons a l => rfl
  rw [hfalsy]
  simp only [Bool.false_eq_true, if_false]
  by_cases hlen : xs.length > 50
  · simp only [hlen, if_true, hllm]
    have h50 : (xs.take 50).length = min xs.length 50 := by
      rw [List.length_take, Nat.min_comm]
    rw [h50]
  · simp only [hlen, if_false, hllm]
    have hx : min xs.length 50 = xs.length := by omega
    rw [hx]

/-- C3 (amended): `process_question` always returns an `{"answer": …}`
    payload and never propagates an error.  Failures that reach its
    top-level handler — input validation, table selection, schema
    introspection, query generation — are converted to the marker-prefixed
    answer.  Execution never raises: every `execute_query` payload is a row
    array or an object carrying an error message, error payloads are
    absorbed into `Lo siento, hubo un error: …` without the marker (also
    end-to-end through `process_question`), and a failing composition LLM
    falls back to the deterministic count answer for list payloads. -/
theorem claim_C3 :
    (∀ (env : Env) (now : Nat) (q : String) (s : Cache),
       ∃ a, (process_question env now q s).1 = ⟨a⟩) ∧
    (∀ (env : Env) (now : Nat) (q : String) (s : Cache) (e : String),
       validate_text_input q 500 5 = .error e →
       (process_question env now q s).1 = ⟨errorMarker ++ e⟩) ∧
    (∀ (env : Env) (now : Nat) (q : String) (s : Cache) (e : String),
       validate_text_input q 500 5 = .ok true →
       (detect_relevant_table env now q s).1 = .error e →
       (process_question env now q s).1 = ⟨errorMarker ++ e⟩) ∧
    (∀ (env : Env) (now : Nat) (q : String) (s : Cache) (tname e : String),
       validate_text_input q 500 5 = .ok true →
       (detect_relevant_table env now q s).1 = .ok tname →
       (get_table_info env now tname (detect_relevant_table env now q s).2.1).1 =
         .error e →
       (process_question env now q s).1 = ⟨errorMarker ++ e⟩) ∧
    (∀ (env : Env) (now : Nat) (q : String) (s : Cache) (tname : String)
       (ti : TableInfo) (e : String),
       validate_text_input q 500 5 = .ok true →
       (detect_relevant_table env now q s).1 = .ok tname →
       (get_table_info env now tname (detect_relevant_table env now q s).2.1).1 =
         .ok ti →
       (generate_query env tname q ti
         (get_table_sample env now tname 50
           (get_table_info env now tname
             (detect_relevant_table env now q s).2.1).2.1).1.toOption).1 =
         .error e →
       (process_question env now q s).1 = ⟨errorMarker ++ e⟩) ∧
    (∀ (fuel : Nat) (env : Env) (q : String) (t : Option String),
       (∃ xs, (execute_query_fuel fuel env q t).1 = Json.arr xs) ∨
       (∃ m rest, (execute_query_fuel fuel env q t).1 =
         Json.obj (("error", Json.str m) :: rest))) ∧
    (∀ (env : Env) (q m : String) (rest : List (String × Json)),
       transform_response env q (Json.obj (("error", Json.str m) :: rest)) =
         (⟨"Lo siento, hubo un error: " ++ m⟩, {})) ∧
    (∀ (env : Env) (now : Nat) (q : String) (s : Cache) (tname : String)
       (ti : TableInfo) (query m : String) (rest : List (String × Json)),
       validate_text_input q 500 5 = .ok true →
       (detect_relevant_table env now q s).1 = .ok tname →
       (get_table_info env now tname (detect_relevant_table env now q s).2.1).1 =
         .ok ti →
       (generate_query env tname q ti
         (get_table_sample env now tname 50
           (get_table_info env now tname
             (detect_relevant_table env now q s).2.1).2.1).1.toOption).1 =
         .ok query →
       (execute_query_fuel (query.length + 1) env query (some tname)).1 =
         Json.obj (("error", Json.str m) :: rest) →
       (process_question env now q s).1 = ⟨"Lo siento, hubo un error: " ++ m⟩) ∧
    (∀ (env : Env) (q : String) (xs : List Json) (e : String),
       errorKeyOf (Json.arr xs) = none → xs ≠ [] →
       (∀ p, env.llm p = .error e) →
       transform_response env q (Json.arr xs) =
         (⟨"Encontré " ++ toString (min xs.length 50) ++ " resultado" ++
           (if min xs.length 50 ≠ 1 then "s" else "") ++ "."⟩,
          { llmCalls := 1 })) := by
  refine ⟨?_, ?_, ?_, ?_, ?_, execute_query_shape, transform_response_error_payload,
    ?_, transform_response_llm_fallback⟩
  · intro env now q s
    exact ⟨(process_question env now q s).1.answer, rfl⟩
  · intro env now q s e h
    unfold process_question
    rw [h]
  · intro env now q s e hv hdet
    unfold process_question
    rw [hv]
    rcases hd : detect_relevant_table env now q s with ⟨res, s1, tr1⟩
    rw [hd] at hdet
    simp only at hdet
    subst hdet
    rfl
  · intro env now q s tname e hv hdet hti
    unfold process_question
    rw [hv]
    rcases hd : detect_relevant_table env now q s with ⟨res, s1, tr1⟩
    rw [hd] at hdet hti
    simp only at hdet hti
    subst hdet
    dsimp only
    rcases hg : get_table_info env now tname s1 with ⟨gres, s2, tr2⟩
    rw [hg] at hti
    simp only at hti
    subst hti
    rfl
  · intro env now q s tname ti e hv hdet hti hgen
    unfold process_question
    rw [hv]
    rcases hd : detect_relevant_table env now q s with ⟨res, s1, tr1⟩
    rw [hd] at hdet hti hgen
    simp only at hdet hti hgen
    subst hdet
    dsimp only
    rcases hg : get_table_info env now tname s1 with ⟨gres, s2, tr2⟩
    rw [hg] at hti hgen
    simp only at hti hgen
    subst hti
    dsimp only
    rcases hs : get_table_sample env now tname 50 s2 with ⟨sres, s3, tr3⟩
    rw [hs] at hgen
    simp only at hgen
    dsimp only
    rcases hgq : generate_query env tname q ti sres.toOption with ⟨genres, tr4⟩
    rw [hgq] at hgen
    simp only at hgen
    subst hgen
    rfl
  · intro env now q s tname ti query m rest hv hdet hti hgen hex
    unfold process_question
    rw [hv]
    rcases hd : detect_relevant_table env now q s with ⟨res, s1, tr1⟩
    rw [hd] at hdet hti hgen
    simp only at hdet hti hgen
    subst hdet
    dsimp only
    rcases hg : get_table_info env now tname s1 with ⟨gres, s2, tr2⟩
    rw [hg] at hti hgen
    simp only at hti hgen
    subst hti
    dsimp only
    rcases hs : get_table_sample env now tname 50 s2 with ⟨sres, s3, tr3⟩
    rw [hs] at hgen
    simp only at hgen
    dsimp only
    rcases hgq : generate_query env tname q ti sres.toOption with ⟨genres, tr4⟩
    rw [hgq] at hgen
    simp only at hgen
    subst hgen
    dsimp only
    rcases he : execute_query_fuel (query.length + 1) env query (some tname)
      with ⟨ev, etr⟩
    rw [he] at hex
    simp only at hex
    subst hex
    dsimp only
    rw [transform_response_error_payload]

/-- Environment whose introspection is down while the whole-schema cache is
    still fresh: table selection succeeds from the cache, the per-table
    introspection then fails. -/
def envDbDown : Env :=
  { llm := fun _ => .error "llm unavailable"
    listTables := .error "db down"
    getColumns := fun _ => .error "db down"
    getConn := .error "db down"
    dbExec := fun _ => .otherError "db down"
    sampleExec := fun _ _ => .error "db down" }

/-- Environment whose LLM is down but whose database answers. -/
def envLlmDown : Env :=
  { llm := fun _ => .error "llm boom"
    listTables := .ok ["productos"]
    getColumns := fun _ => .ok [("nombre", "VARCHAR(50)")]
    getConn := .ok ()
    dbExec := fun _ => .ok [] []
    sampleExec := fun _ _ => .ok [] }

/-- Environment whose database rejects every statement with a generic
    exception. -/
def envDbError : Env :=
  { llm := fun _ => .ok "SELECT nombre FROM productos"
    listTables := .ok ["productos"]
    getColumns := fun _ => .ok [("nombre", "VARCHAR(50)")]
    getConn := .ok ()
    dbExec := fun _ => .otherError "deadlock detected"
    sampleExec := fun _ _ => .ok [] }

/-- Witness for the amended C3: the validation, introspection, generation,
    execution-absorption and composition-fallback parts of the theorem at
    concrete inputs. -/
theorem claim_C3_witness :
    (process_question blankEnv 0 "hey" []).1 =
      ⟨errorMarker ++ "El texto debe tener al menos 5 caracteres"⟩ ∧
    (process_question envDbDown 0 "¿Cuántos productos hay?"
       [("db_info", .dbInfo [("productos", [("nombre", "VARCHAR(50)")])] 0)]).1 =
      ⟨errorMarker ++ "db down"⟩ ∧
    (process_question envLlmDown 0 "¿Cuántos productos hay?" []).1 =
      ⟨errorMarker ++ "Error generando consulta: llm boom"⟩ ∧
    (process_question envDbError 0 "¿Cuántos productos hay?" []).1 =
      ⟨"Lo siento, hubo un error: deadlock detected"⟩ ∧
    transform_response blankEnv "p" (Json.obj [("error", Json.str "boom")]) =
      (⟨"Lo siento, hubo un error: boom"⟩, {}) ∧
    transform_response envLlmDown "p" (Json.arr [Json.int 1, Json.int 2]) =
      (⟨"Encontré " ++ toString (min ([Json.int 1, Json.int 2].length) 50) ++
        " resultado" ++
        (if min ([Json.int 1, Json.int 2].length) 50 ≠ 1 then "s" else "") ++
        "."⟩,
       { llmCalls := 1 }) :=
  ⟨claim_C3.2.1 blankEnv 0 "hey" [] "El texto debe tener al menos 5 caracteres"
     rfl,
   claim_C3.2.2.2.1 envDbDown 0 "¿Cuántos productos hay?"
     [("db_info", .dbInfo [("productos", [("nombre", "VARCHAR(50)")])] 0)]
     "productos" "db down" rfl rfl rfl,
   claim_C3.2.2.2.2.1 envLlmDown 0 "¿Cuántos productos hay?" []
     "productos" [("nombre", "VARCHAR(50)")] "Error generando consulta: llm boom"
     rfl rfl rfl rfl,
   claim_C3.2.2.2.2.2.2.2.1 envDbError 0 "¿Cuántos productos hay?" []
     "productos" [("nombre", "VARCHAR(50)")] "SELECT nombre FROM productos"
     "deadlock detected" [] rfl rfl rfl rfl rfl,
   claim_C3.2.2.2.2.2.2.1 blankEnv "p" "boom" [],
   claim_C3.2.2.2.2.2.2.2.2 envLlmDown "p" [Json.int 1, Json.int 2] "llm boom"
     rfl (by simp) (fun _ => rfl)⟩

/-- Witness for the amended C7 at the concrete failing scenario. -/
theorem claim_C7_witness :
    execute_query_fuel 0
      { blankEnv with dbExec := fun _ => .sqlError "syntax error near ```sql" }
      "SELECT nombre FROM productos LIMIT 10" (some "productos") =
    execute_query_fuel 7
      { blankEnv with dbExec := fun _ => .sqlError "syntax error near ```sql" }
      "SELECT nombre FROM productos LIMIT 10" (some "productos") ∧
    (execute_query_fuel 0
      { blankEnv with dbExec := fun _ => .sqlError "syntax error near ```sql" }
      "SELECT nombre FROM productos LIMIT 10" (some "productos")).2.dbExecs ≤ 1 :=
  claim_C7 _ _ (some "productos") 0 7 (by decide)

end BotDespensa
